import Mathlib

/-!
Shallow embedding of the response-export pipeline and response-filtering
engine of `pyualtrics/qualtrics.py`, together with theorems settling the
frozen claims about it.

Modelling conventions:
* CSV cells and field names are strings; one decoded CSV record
  (the output of `csv.DictReader` for one line) is an association list
  `Row` from field name to cell, in column order.
* The pandas dataframe built by `pd.read_csv(file, skiprows=[1, 2])` is
  modelled by the list of data rows of the same file with the first two
  data rows removed; column access is lookup by field name and boolean
  masks are `List Bool` aligned with the original row indexes, which is
  how `DataFrame.loc[mask]` aligns a mask built on the unfiltered frame.
* Network and file traffic is recorded as a trace of `Ev` events; the
  HTTP collaborator is an oracle (`ExportOracle`) supplying the poll
  replies and the archive content that the export protocol would return.
* Fallible Python code becomes `Except PyErr`; `try/except` blocks match
  on the error. Mutation of `self` becomes explicit `SurveyState` passing.
-/

deriving instance DecidableEq for Except

namespace Pyualtrics

/-- `s.startswith(pre)` on Python strings, phrased over the character
lists so that it evaluates by kernel reduction. -/
def pyStartsWith (s pre : String) : Bool :=
  pre.toList.isPrefixOf s.toList

/-- Lexicographic code-point order on character lists, as Python
compares strings. -/
def charListLt : List Char → List Char → Bool
  | [], [] => false
  | [], _ :: _ => true
  | _ :: _, [] => false
  | a :: as, b :: bs =>
      if a.toNat < b.toNat then true
      else if a.toNat = b.toNat then charListLt as bs
      else false

/-- `a < b` on Python strings. -/
def pyStrLt (a b : String) : Bool :=
  charListLt a.toList b.toList

abbrev Field := String
abbrev Cell := String

/-- One decoded CSV record: field name to cell value, in column order. -/
abbrev Row := List (Field × Cell)

/-- Python exceptions relevant to the modelled code.  `excField msg f`
is an `Exception` whose message names the offending field `f`. -/
inductive PyErr where
  | exc (msg : String)
  | excField (msg : String) (field : String)
  | keyError (field : String)
  | indexError
  | typeError
  | attributeError
  deriving DecidableEq, Repr

/-- Python truthiness of an optional string (`None` and `""` are falsy). -/
def truthy : Option String → Bool
  | none => false
  | some s => s ≠ ""

/-- `d[k]` on a Python dict modelled as an association list:
a missing key raises `KeyError`. -/
def pyItem (r : Row) (f : Field) : Except PyErr Cell :=
  match r.lookup f with
  | some v => .ok v
  | none => .error (.keyError f)

/-! ### Timestamps: `datetime.strptime(s, "%Y-%m-%d %H:%M:%S")`

Modelled for canonical zero-padded 19-character stamps, the format used
throughout the spec and the library docstrings.  A parsed stamp is
encoded as a natural number whose order agrees with `datetime` order. -/

def digitVal (c : Char) : Option Nat :=
  if c.isDigit then some (c.toNat - 48) else none

def twoDigits (a b : Char) : Option Nat := do
  let x ← digitVal a
  let y ← digitVal b
  pure (x * 10 + y)

def fourDigits (a b c d : Char) : Option Nat := do
  let x ← twoDigits a b
  let y ← twoDigits c d
  pure (x * 100 + y)

def isLeapYear (y : Nat) : Bool :=
  (y % 4 = 0 && y % 100 ≠ 0) || y % 400 = 0

def daysInMonth (y m : Nat) : Nat :=
  if m = 2 then (if isLeapYear y then 29 else 28)
  else if m = 4 ∨ m = 6 ∨ m = 9 ∨ m = 11 then 30
  else 31

/-- Parse `"YYYY-MM-DD HH:MM:SS"` to an order-preserving encoding,
validating the ranges `datetime` enforces. -/
def parseTimestamp (s : String) : Option Nat :=
  match s.toList with
  | [y1, y2, y3, y4, '-', m1, m2, '-', d1, d2, ' ', h1, h2, ':', n1, n2, ':', s1, s2] => do
      let y ← fourDigits y1 y2 y3 y4
      let mo ← twoDigits m1 m2
      let d ← twoDigits d1 d2
      let h ← twoDigits h1 h2
      let mi ← twoDigits n1 n2
      let se ← twoDigits s1 s2
      if 1 ≤ y ∧ 1 ≤ mo ∧ mo ≤ 12 ∧ 1 ≤ d ∧ d ≤ daysInMonth y mo
          ∧ h ≤ 23 ∧ mi ≤ 59 ∧ se ≤ 59 then
        pure (((((y * 100 + mo) * 100 + d) * 100 + h) * 100 + mi) * 100 + se)
      else none
  | _ => none

/-- `datetime.strptime` raising `ValueError` on non-matching input. -/
def pyStrptime (s : String) : Except PyErr Nat :=
  match parseTimestamp s with
  | some t => .ok t
  | none => .error (.exc "time data does not match format")

/-- `c.lower() in ['b', 'a']` for the first character of the mode string. -/
def lowerIsBeforeOrAfter (c : Char) : Bool :=
  c = 'b' ∨ c = 'B' ∨ c = 'a' ∨ c = 'A'

/-- Source `_compare_timestamps(stamp1, stamp2, beforeAfter)`.
Faithful to the source:
* `beforeAfter` falsy or first letter (lowercased) not `b`/`a` raises;
* only the exact strings `"b"` and `"a"` select a comparison,
  `"b"` returning `stamp1 > stamp2` and `"a"` returning `stamp1 < stamp2`;
* any other accepted mode string (for example `"before"`) returns `None`,
  modelled as `Option.none` inside `Except.ok`. -/
def compare_timestamps (stamp1 stamp2 : String) (beforeAfter : Option String) :
    Except PyErr (Option Bool) :=
  if ¬ truthy beforeAfter
      ∨ ¬ lowerIsBeforeOrAfter ((beforeAfter.getD "").toList.headD ' ') then
    .error (.exc "before/after not specified")
  else do
    let ba := beforeAfter.getD ""
    let t1 ← pyStrptime stamp1
    let t2 ← pyStrptime stamp2
    if ba = "b" then pure (some (t2 < t1))
    else if ba = "a" then pure (some (t1 < t2))
    else pure (none)

/-! ### Response records (`Response.__init__`)

Well-known columns are promoted to named attributes; every column whose
name starts with `'Q'` is collected into the `answers` mapping. -/

structure Response where
  data : Row
  id : Option Cell
  startDate : Option Cell
  endDate : Option Cell
  status : Option Cell
  recordedDate : Option Cell
  answers : Row
  deriving DecidableEq, Repr

/-- `Response(data=row, ...)` from one decoded CSV record. -/
def mkResponse (r : Row) : Response :=
  { data := r
    id := r.lookup "ResponseId"
    startDate := r.lookup "StartDate"
    endDate := r.lookup "EndDate"
    status := r.lookup "Status"
    recordedDate := r.lookup "RecordedDate"
    answers := r.filter (fun p => pyStartsWith p.1 "Q") }

/-- The source `Filter` class: a named, reusable filter specification. -/
structure Filter where
  filter : List (Field × List Cell)
  deriving DecidableEq, Repr

/-! ### Observable I/O events and the HTTP collaborator -/

/-- Observable side effects of the pipeline, in order of occurrence. -/
inductive Ev where
  | sleep
  | netExportRequest
  | netPoll
  | netFetch (fileId : String)
  | fileRead (path : String)
  deriving DecidableEq, Repr

def Ev.isNetwork : Ev → Bool
  | .netExportRequest => true
  | .netPoll => true
  | .netFetch _ => true
  | _ => false

/-- One reply of the progress-poll endpoint. -/
structure PollReply where
  status : String
  fileId : Option String
  percentComplete : Nat
  deriving DecidableEq, Repr

/-- The HTTP collaborator for one export run: the poll replies it will
return in order, and the tabular content of the archive it serves
(already decoded as `csv.DictReader` records). -/
structure ExportOracle where
  progressId : String
  polls : List PollReply
  archive : List Row
  deriving DecidableEq, Repr

/-- Local storage: extracted artifact path to decoded CSV records. -/
structure World where
  fs : List (String × List Row)
  deriving DecidableEq, Repr

def World.write (w : World) (p : String) (rows : List Row) : World :=
  ⟨(p, rows) :: w.fs⟩

def World.read (w : World) (p : String) : Option (List Row) :=
  w.fs.lookup p

/-- The mutable survey attributes touched by the pipeline. -/
structure SurveyState where
  name : String
  responseFolder : Option String
  responsesFile : Option String
  responses : Option (List Response)
  responseDataframe : Option (List Row)
  deriving DecidableEq, Repr

/-! ### Export Job (`Survey._export_survey`) -/

/-- The poll loop of `_export_survey`: issue GET requests until the
reported status is terminal, returning the last reply.  The source loops
without bound; an exhausted reply sequence is modelled as an error and
never reached in the theorems below (they hypothesise a terminal reply). -/
def pollLoop : List PollReply → List Ev × Except PyErr PollReply
  | [] => ([], .error (.exc "poll sequence exhausted"))
  | rep :: rest =>
      if rep.status = "complete" ∨ rep.status = "failed" then
        ([Ev.netPoll], .ok rep)
      else
        (Ev.netPoll :: (pollLoop rest).1, (pollLoop rest).2)

/-- First terminal reply of a poll sequence, if any. -/
def firstTerminal : List PollReply → Option PollReply
  | [] => none
  | rep :: rest =>
      if rep.status = "complete" ∨ rep.status = "failed" then some rep
      else firstTerminal rest

/-- The output-folder resolution of `_export_survey`: a truthy
`folderName` argument redirects the folder, otherwise the stored
`responseFolder` is used (`if not folderName: folderName = self.responseFolder`). -/
def resolvedFolder (st : SurveyState) (folderName : Option String) : String :=
  if truthy folderName then folderName.getD "" else st.responseFolder.getD ""

/-- `Survey._export_survey(fileFormat, folderName, ...)`.
Mirrors the source: missing output location raises before any request;
POST starts the export; the poll loop runs to a terminal status; a
`failed` status raises before the file id is read; otherwise the archive
is fetched and extracted so that the deterministic path
`folder/name.fileFormat` holds the artifact, and `responsesFile` is set.
The optional body parameters only shape the request payload and are not
modelled.  Returns the trace, the updated state and world, and the
extracted file path. -/
def exportSurvey (st : SurveyState) (w : World) (oc : ExportOracle)
    (fileFormat : String) (folderName : Option String) :
    List Ev × SurveyState × World × Except PyErr String :=
  if ¬ truthy folderName ∧ ¬ truthy st.responseFolder then
    ([], st, w, .error (.exc "No response folder assigned"))
  else
    let folder := resolvedFolder st folderName
    let st1 := { st with responseFolder := some folder }
    match (pollLoop oc.polls).2 with
    | .error e => (Ev.netExportRequest :: (pollLoop oc.polls).1, st1, w, .error e)
    | .ok rep =>
        if rep.status = "failed" then
          (Ev.netExportRequest :: (pollLoop oc.polls).1, st1, w, .error (.exc "export failed"))
        else
          match rep.fileId with
          | none => (Ev.netExportRequest :: (pollLoop oc.polls).1, st1, w, .error (.keyError "fileId"))
          | some fid =>
              let path := folder ++ "/" ++ st1.name ++ "." ++ fileFormat
              let w2 := w.write path oc.archive
              let st2 := { st1 with responsesFile := some path }
              (Ev.netExportRequest :: (pollLoop oc.polls).1 ++ [Ev.netFetch fid], st2, w2, .ok path)

/-! ### Response Store (`Survey.get_responses`, `Survey._create_responses_dataframe`) -/

/-- The decode phase of `get_responses`: when `self.responses` is falsy
(`None` or `[]`), open `responsesFile`, build a `Response` per record
and pop the first two (they repeat the column headers).  `evs` is the
trace accumulated so far.  The partial mutations preceding an error are
kept, matching Python. -/
def decodePhase (evs : List Ev) (st : SurveyState) (w : World) :
    List Ev × SurveyState × World × Except PyErr (List Response) :=
  if st.responses = none ∨ st.responses = some [] then
    match st.responsesFile with
    | none => (evs, st, w, .error .typeError)
    | some p =>
        match w.read p with
        | none => (evs ++ [Ev.fileRead p], st, w, .error (.exc "file not found"))
        | some rows =>
            match rows.map mkResponse with
            | [] => (evs ++ [Ev.fileRead p], { st with responses := some [] }, w, .error .indexError)
            | [_] => (evs ++ [Ev.fileRead p], { st with responses := some [] }, w, .error .indexError)
            | _ :: _ :: rest =>
                (evs ++ [Ev.fileRead p], { st with responses := some rest }, w, .ok rest)
  else
    (evs, st, w, .ok (st.responses.getD []))

/-- The body of `Survey.get_responses` (inside its `try`).  A fresh
download is triggered by `re_download`, a redirected folder, or a falsy
`responsesFile`; on export success `self.responses` is reset to `None`
before decoding. -/
def getResponsesBody (st : SurveyState) (w : World) (oc : ExportOracle)
    (folderName : Option String) (re_download : Bool) :
    List Ev × SurveyState × World × Except PyErr (List Response) :=
  if re_download ∨ (truthy folderName ∧ folderName ≠ st.responseFolder)
      ∨ ¬ truthy st.responsesFile then
    match exportSurvey st w oc "csv" folderName with
    | (evs, st1, w1, .error e) => (Ev.sleep :: evs, st1, w1, .error e)
    | (evs, st1, w1, .ok _) => decodePhase (Ev.sleep :: evs) { st1 with responses := none } w1
  else
    decodePhase [] st w

/-- `Survey.get_responses`: the whole body runs inside
`try: ... except Exception: return None`, so every internal error is
swallowed and `None` is returned, with partial mutations kept. -/
def get_responses (st : SurveyState) (w : World) (oc : ExportOracle)
    (folderName : Option String) (re_download : Bool) :
    List Ev × SurveyState × World × Option (List Response) :=
  match getResponsesBody st w oc folderName re_download with
  | (evs, st1, w1, .error _) => (evs, st1, w1, none)
  | (evs, st1, w1, .ok l) => (evs, st1, w1, some l)

/-- `Survey._create_responses_dataframe`: if `responsesFile` is truthy,
`pd.read_csv(self.responsesFile, skiprows=[1, 2])` rebuilds the columnar
table from the artifact minus its first two data rows; a read failure is
caught and leaves the stored table untouched. -/
def create_responses_dataframe (st : SurveyState) (w : World) :
    List Ev × SurveyState × Option (List Row) :=
  if truthy st.responsesFile then
    let p := st.responsesFile.getD ""
    match w.read p with
    | some rows =>
        let table := rows.drop 2
        ([Ev.fileRead p], { st with responseDataframe := some table }, some table)
    | none => ([Ev.fileRead p], st, none)
  else
    ([], st, none)

/-! ### Filter Engine -/

/-- The first validation loop shared by both filter methods:
`for field in filters.keys(): if not self.responses[0].data.get(field): raise`. -/
def checkFields (first : Response) : List (Field × List Cell) → Except PyErr Unit
  | [] => .ok ()
  | (f, _) :: rest =>
      if truthy (first.data.lookup f) then checkFields first rest
      else .error (.excField "is not a valid response field" f)

/-- Text-filter value validation: an empty value list raises. -/
def checkTextValues : List (Field × List Cell) → Except PyErr Unit
  | [] => .ok ()
  | (f, vs) :: rest =>
      if vs = [] then .error (.excField "values cannot be empty" f)
      else checkTextValues rest

/-- Date-filter value validation: the value list must have length 2. -/
def checkDateValues : List (Field × List Cell) → Except PyErr Unit
  | [] => .ok ()
  | (f, vs) :: rest =>
      if vs = [] ∨ vs.length ≠ 2 then
        .error (.excField "value must be a date and before/after pair" f)
      else checkDateValues rest

/-- Row-path text predicate: walk the filter entries; a value outside
the acceptable set fails the record at once (the `break`), a missing
column raises `KeyError`. -/
def rowPassesText : List (Field × List Cell) → Response → Except PyErr Bool
  | [], _ => .ok true
  | (f, vs) :: rest, resp => do
      let v ← pyItem resp.data f
      if vs.contains v then rowPassesText rest resp else pure false

/-- The row-path text loop: append each response that passes. -/
def rowFilterTextGo (flt : List (Field × List Cell)) :
    List Response → List Response → Except PyErr (List Response)
  | acc, [] => .ok acc
  | acc, resp :: rest => do
      let b ← rowPassesText flt resp
      rowFilterTextGo flt (if b then acc ++ [resp] else acc) rest

def rowFilterText (resps : List Response) (flt : List (Field × List Cell)) :
    Except PyErr (List Response) :=
  rowFilterTextGo flt [] resps

/-- Row-path date predicate: a record passes only when
`_compare_timestamps(data[column], values[0], values[1])` returns `True`;
a `None` or `False` result fails it. -/
def rowPassesDate : List (Field × List Cell) → Response → Except PyErr Bool
  | [], _ => .ok true
  | (f, vs) :: rest, resp => do
      let v ← pyItem resp.data f
      let c ← compare_timestamps v (vs.getD 0 "") (some (vs.getD 1 ""))
      match c with
      | some true => rowPassesDate rest resp
      | _ => pure false

def rowFilterDateGo (flt : List (Field × List Cell)) :
    List Response → List Response → Except PyErr (List Response)
  | acc, [] => .ok acc
  | acc, resp :: rest => do
      let b ← rowPassesDate flt resp
      rowFilterDateGo flt (if b then acc ++ [resp] else acc) rest

def rowFilterDate (resps : List Response) (flt : List (Field × List Cell)) :
    Except PyErr (List Response) :=
  rowFilterDateGo flt [] resps

/-- Build one boolean mask column over the dataframe:
`responses_dataframe[field]` mapped through `test` (membership or a
string comparison); a missing column raises `KeyError`. -/
def buildMask (f : Field) (test : Cell → Bool) : List Row → Except PyErr (List Bool)
  | [] => .ok []
  | r :: rest => do
      let v ← pyItem r f
      let m ← buildMask f test rest
      pure (test v :: m)

/-- Columnar text path: one `isin(values)` mask per filter entry. -/
def dfMasksText (table : List Row) :
    List (Field × List Cell) → Except PyErr (List (List Bool))
  | [] => .ok []
  | (f, vs) :: rest => do
      let m ← buildMask f (fun v => vs.contains v) table
      let ms ← dfMasksText table rest
      pure (m :: ms)

/-- Columnar date path: per entry, the mode must start with `"be"` or
`"a"`; a `b*` mode compares `dataframe[field] < values[0]` and an `a*`
mode compares `dataframe[field] > values[0]` — lexicographic string
comparisons, since `read_csv` leaves these cells as strings. -/
def dfMasksDate (table : List Row) :
    List (Field × List Cell) → Except PyErr (List (List Bool))
  | [] => .ok []
  | (f, vs) :: rest => do
      let mode := vs.getD 1 ""
      if ¬ pyStartsWith mode "be" ∧ ¬ pyStartsWith mode "a" then
        .error (.excField "value must be a date and before/after pair" f)
      else do
        let ms1 ←
          if pyStartsWith mode "b" then do
            let m ← buildMask f (fun v => pyStrLt v (vs.getD 0 "")) table
            pure [m]
          else pure []
        let ms2 ←
          if pyStartsWith mode "a" then do
            let m ← buildMask f (fun v => pyStrLt (vs.getD 0 "") v) table
            pure [m]
          else pure []
        let msRest ← dfMasksDate table rest
        pure (ms1 ++ ms2 ++ msRest)

/-- `df.loc[mask]` on an indexed frame: masks are aligned by the
original row index, so each selection keeps the pairs whose index the
mask maps to `true`. -/
def dfSelect (rows : List (Nat × Row)) (mask : List Bool) : List (Nat × Row) :=
  rows.filter (fun p => mask.getD p.1 false)

/-- `for mask in masks: responses_dataframe = responses_dataframe.loc[mask]`. -/
def dfApplyMasks (table : List Row) (masks : List (List Bool)) : List Row :=
  (masks.foldl dfSelect table.enum).map Prod.snd

/-- The result of a filter method: `Response` objects on the row path,
a dataframe on the columnar path. -/
inductive FilterResult where
  | rows (l : List Response)
  | table (t : List Row)
  deriving DecidableEq, Repr

/-- Validation and evaluation of `filter_responses_by_text`, after any
refresh: empty filter, invalid field (checked against the first
response) and empty value set raise in that order; then the chosen
representation is filtered. -/
def filterTextCore (st : SurveyState) (flt : List (Field × List Cell))
    (dataFrame : Bool) : Except PyErr FilterResult :=
  if flt = [] then .error (.exc "filters dictionary cannot be empty")
  else
    match st.responses with
    | none => .error .typeError
    | some [] => .error .indexError
    | some (r0 :: rs) => do
        checkFields r0 flt
        checkTextValues flt
        if dataFrame then
          match st.responseDataframe with
          | none => .error .typeError
          | some table => do
              let masks ← dfMasksText table flt
              pure (FilterResult.table (dfApplyMasks table masks))
        else do
          let l ← rowFilterText (r0 :: rs) flt
          pure (FilterResult.rows l)

/-- Validation and evaluation of `filter_responses_by_date`, after any
refresh. -/
def filterDateCore (st : SurveyState) (flt : List (Field × List Cell))
    (dataFrame : Bool) : Except PyErr FilterResult :=
  if flt = [] then .error (.exc "filters dictionary cannot be empty")
  else
    match st.responses with
    | none => .error .typeError
    | some [] => .error .indexError
    | some (r0 :: rs) => do
        checkFields r0 flt
        checkDateValues flt
        if dataFrame then
          match st.responseDataframe with
          | none => .error .typeError
          | some table => do
              let masks ← dfMasksDate table flt
              pure (FilterResult.table (dfApplyMasks table masks))
        else do
          let l ← rowFilterDate (r0 :: rs) flt
          pure (FilterResult.rows l)

/-- The refresh prelude shared by both filter methods: when
`re_download`, a truthy `folderName` or a missing dataframe demand it,
re-materialise the Response Store and rebuild the dataframe. -/
def filterRefresh (st : SurveyState) (w : World) (oc : ExportOracle)
    (folderName : Option String) (re_download : Bool) :
    List Ev × SurveyState × World :=
  if re_download ∨ truthy folderName ∨ st.responseDataframe = none then
    match get_responses st w oc folderName re_download with
    | (evs1, st1, w1, _) =>
        match create_responses_dataframe st1 w1 with
        | (evs2, st2, _) => (evs1 ++ evs2, st2, w1)
  else
    ([], st, w)

/-- `Survey.filter_responses_by_text`.  An `existingFilter` replaces the
ad-hoc `filters` argument.  The `saveFilter` side output (a `Filter`
built from the same `filters`) does not affect the selection and is not
part of the modelled result. -/
def filter_responses_by_text (st : SurveyState) (w : World) (oc : ExportOracle)
    (filters : List (Field × List Cell)) (existingFilter : Option Filter)
    (folderName : Option String) (re_download : Bool) (dataFrame : Bool) :
    List Ev × SurveyState × World × Except PyErr FilterResult :=
  let flt := match existingFilter with
    | some fl => fl.filter
    | none => filters
  let (evs, st1, w1) := filterRefresh st w oc folderName re_download
  (evs, st1, w1, filterTextCore st1 flt dataFrame)

/-- `Survey.filter_responses_by_date`. -/
def filter_responses_by_date (st : SurveyState) (w : World) (oc : ExportOracle)
    (filters : List (Field × List Cell)) (existingFilter : Option Filter)
    (folderName : Option String) (re_download : Bool) (dataFrame : Bool) :
    List Ev × SurveyState × World × Except PyErr FilterResult :=
  let flt := match existingFilter with
    | some fl => fl.filter
    | none => filters
  let (evs, st1, w1) := filterRefresh st w oc folderName re_download
  (evs, st1, w1, filterDateCore st1 flt dataFrame)

/-- Matching response identifiers of a filter result: the `ResponseId`
of each selected record, in order. -/
def resultIds : Except PyErr FilterResult → Option (List (Option Cell))
  | .ok (.rows l) => some (l.map Response.id)
  | .ok (.table t) => some (t.map (fun r => r.lookup "ResponseId"))
  | .error _ => none

/-! ### Paginator (`Qualtrics.get_surveys`, `get_libraries`, `get_groups`)

Each traversal consumes the collaborator's pages in order: a page holds
the JSON `elements` plus the optional `nextPage` cursor; traversal
recurses while a cursor is present and carries the accumulated list.
The cursor value (offset step of 100 for surveys, `int(nextPage)` for
groups, a verbatim URL for libraries) only selects the next page, which
the oracle serves as the next list entry. -/

/-- A minimal Python value universe for the JSON payloads. -/
inductive PyV where
  | str (s : String)
  | dict (entries : List (String × PyV))
  | list (entries : List PyV)
  | none
  deriving Repr

/-- `data.get(k)`: only dicts have `.get`; on any other value Python
raises `AttributeError`. -/
def pyGet (v : PyV) (k : String) : Except PyErr PyV :=
  match v with
  | .dict entries => .ok ((entries.lookup k).getD .none)
  | _ => .error .attributeError

/-- One page returned by a paginated list endpoint. -/
structure Page where
  elements : List PyV
  nextPage : Option String

structure GroupObj where
  data : PyV
  id : PyV
  name : PyV

/-- `Group.__init__`: reads `id` and `name` from its `data` argument. -/
def mkGroup (data : PyV) : Except PyErr GroupObj := do
  let i ← pyGet data "id"
  let n ← pyGet data "name"
  pure { data := data, id := i, name := n }

/-- `Qualtrics.get_groups`, pages supplied by the oracle in traversal
order.  Faithful to the source slip: the loop body appends
`Group(data=groups)` — the accumulator list itself, not the loop
element — so `Group.__init__` calls `.get` on a list. -/
def getGroupsGo : List Page → List GroupObj → Except PyErr (List GroupObj)
  | [], acc => .ok acc
  | pg :: rest, acc => do
      let acc2 ← pg.elements.foldlM
        (fun gs _elem => do
          let g ← mkGroup (PyV.list (gs.map GroupObj.data))
          pure (gs ++ [g]))
        acc
      match pg.nextPage with
      | some _ => getGroupsGo rest acc2
      | Option.none => .ok acc2

def get_groups (pages : List Page) : Except PyErr (List GroupObj) :=
  getGroupsGo pages []

/-- `Qualtrics.get_surveys` and `get_libraries` share this shape: append
every page element (wrapped as an entity object, here kept as its raw
payload) and recurse on the carried list while a `nextPage` cursor is
present.  An absent page (HTTP failure) ends traversal with the partial
result. -/
def getSurveysGo : List Page → List PyV → List PyV
  | [], acc => acc
  | pg :: rest, acc =>
      let acc2 := acc ++ pg.elements
      match pg.nextPage with
      | some _ => getSurveysGo rest acc2
      | Option.none => acc2

def get_surveys (pages : List Page) : List PyV :=
  getSurveysGo pages []

/-! ### Derived predicates used in theorem statements -/

/-- The cell of `r` at field `f` (the fields in question are always
present where this is used). -/
def cellOf (r : Row) (f : Field) : Cell :=
  (r.lookup f).getD ""

/-- The text-filter pass predicate of the spec: for every filter entry,
the record's value at that field belongs to the acceptable set
(conjunction over fields, disjunction inside one value set). -/
def passesText (flt : List (Field × List Cell)) (r : Row) : Bool :=
  flt.all (fun p => p.2.contains (cellOf r p.1))

/-! ### Concrete fixtures for the witnesses and counterexamples -/

/-- Record with the early `RecordedDate` of the spec's date example. -/
def exDateRow1 : Row :=
  [("ResponseId", "R_1"), ("RecordedDate", "2021-01-01 00:00:00"), ("Q1", "A")]

/-- Record with the late `RecordedDate` of the spec's date example. -/
def exDateRow2 : Row :=
  [("ResponseId", "R_2"), ("RecordedDate", "2021-06-01 00:00:00"), ("Q1", "B")]

/-- The spec's date filter: `{RecordedDate: ["2021-03-01 00:00:00", "before"]}`. -/
def exDateFlt : List (Field × List Cell) :=
  [("RecordedDate", ["2021-03-01 00:00:00", "before"])]

/-- A store already materialized over the two date-example records. -/
def exDateState : SurveyState :=
  { name := "S"
    responseFolder := some "out"
    responsesFile := some "out/S.csv"
    responses := some ([exDateRow1, exDateRow2].map mkResponse)
    responseDataframe := some [exDateRow1, exDateRow2] }

/-- An idle world/oracle pair for calls that trigger no refresh. -/
def exWorld : World := ⟨[("out/S.csv", [exDateRow1, exDateRow1, exDateRow1, exDateRow2])]⟩

def exOracle : ExportOracle := ⟨"p1", [⟨"complete", some "f1", 100⟩], []⟩

/-- The three records of the spec's text-filter example. -/
def exTextRow1 : Row := [("ResponseId", "R_1"), ("Q1", "A"), ("Q2", "X")]

def exTextRow2 : Row := [("ResponseId", "R_2"), ("Q1", "B"), ("Q2", "X")]

def exTextRow3 : Row := [("ResponseId", "R_3"), ("Q1", "A"), ("Q2", "Y")]

/-- The spec's text filter `{Q1: ["A"], Q2: ["X"]}`. -/
def exTextFlt : List (Field × List Cell) := [("Q1", ["A"]), ("Q2", ["X"])]

/-- A store already materialized over the three text-example records. -/
def exTextState : SurveyState :=
  { name := "S"
    responseFolder := some "out"
    responsesFile := some "out/S.csv"
    responses := some ([exTextRow1, exTextRow2, exTextRow3].map mkResponse)
    responseDataframe := some [exTextRow1, exTextRow2, exTextRow3] }

/-- A store that has never been materialized. -/
def exFreshState : SurveyState :=
  { name := "S"
    responseFolder := some "out"
    responsesFile := none
    responses := none
    responseDataframe := none }

/-- An oracle following the spec scenario: `[50%, in_progress]`,
`[100%, complete, fileId="f1"]`, serving a three-record archive. -/
def exScenarioOracle : ExportOracle :=
  ⟨"p1", [⟨"in_progress", none, 50⟩, ⟨"complete", some "f1", 100⟩],
    [exTextRow1, exTextRow2, exTextRow3]⟩

/-- Artifact A: header-repeat rows followed by record `R_1`. -/
def exArtifactA : List Row := [exTextRow1, exTextRow1, exTextRow1]

/-- Artifact B: header-repeat rows followed by record `R_2`. -/
def exArtifactB : List Row := [exTextRow1, exTextRow1, exTextRow2]

/-- A store consistently materialized over artifact A. -/
def exStateOnA : SurveyState :=
  { name := "S"
    responseFolder := some "out"
    responsesFile := some "out/S.csv"
    responses := some ((exArtifactA.drop 2).map mkResponse)
    responseDataframe := some (exArtifactA.drop 2) }

/-- An oracle whose export run serves artifact B. -/
def exOracleB : ExportOracle := ⟨"p1", [⟨"complete", some "f1", 100⟩], exArtifactB⟩

/-- A store materialized to an empty record sequence (the artifact had
exactly the two header-repeat rows). -/
def exEmptyState : SurveyState :=
  { name := "S"
    responseFolder := some "out"
    responsesFile := some "p"
    responses := some []
    responseDataframe := some [] }

def exEmptyWorld : World := ⟨[("p", [exTextRow1, exTextRow1])]⟩

/-- A store materialized with no response folder configured (the folder
is only needed when a download is triggered). -/
def exNoFolderState : SurveyState :=
  { name := "S"
    responseFolder := none
    responsesFile := some "p"
    responses := some ([exTextRow1].map mkResponse)
    responseDataframe := some [exTextRow1] }

/-- A one-page groups listing with a single well-formed element. -/
def exGroupsPage : Page :=
  ⟨[PyV.dict [("id", PyV.str "g1"), ("name", PyV.str "grp")]], Option.none⟩

/-- An oracle whose export run fails at the second poll. -/
def exFailOracle : ExportOracle :=
  ⟨"p1", [⟨"in_progress", none, 50⟩, ⟨"failed", none, 50⟩], []⟩

/-- Local storage holding artifact A at the deterministic path. -/
def exWorldOnA : World := ⟨[("out/S.csv", exArtifactA)]⟩

/-- Local storage with no files. -/
def exBareWorld : World := ⟨[]⟩

/-- A three-row artifact stored at path `p`. -/
def exWorldP3 : World := ⟨[("p", [exTextRow1, exTextRow1, exTextRow3])]⟩

/-- A store whose rows were decoded from the artifact at `p` but whose
columnar table was never built (`responseDataframe` is `None`). -/
def exNoTableState : SurveyState :=
  { name := "S"
    responseFolder := some "out"
    responsesFile := some "p"
    responses := some [mkResponse exTextRow3]
    responseDataframe := none }

/-! ## General lemmas about the export state machine -/

theorem pollLoop_ok_of_firstTerminal :
    ∀ {polls : List PollReply} {rep : PollReply},
      firstTerminal polls = some rep → (pollLoop polls).2 = .ok rep := by
  intro polls
  induction polls with
  | nil => intro rep h; simp [firstTerminal] at h
  | cons p rest ih =>
      intro rep h
      by_cases hterm : p.status = "complete" ∨ p.status = "failed"
      · rw [firstTerminal, if_pos hterm] at h
        cases h
        simp [pollLoop, hterm]
      · rw [firstTerminal, if_neg hterm] at h
        simp [pollLoop, hterm, ih h]

theorem pollLoop_events :
    ∀ (polls : List PollReply), ∀ e ∈ (pollLoop polls).1, e = Ev.netPoll := by
  intro polls
  induction polls with
  | nil => intro e h; simp [pollLoop] at h
  | cons p rest ih =>
      intro e h
      by_cases hterm : p.status = "complete" ∨ p.status = "failed"
      · rw [pollLoop, if_pos hterm] at h
        simpa using h
      · rw [pollLoop, if_neg hterm] at h
        rcases List.mem_cons.mp h with h1 | h2
        · exact h1
        · exact ih e h2

theorem pollLoop_status_congr :
    ∀ {l1 l2 : List PollReply}, l1.map PollReply.status = l2.map PollReply.status →
      (pollLoop l1).1 = (pollLoop l2).1 ∧
      (((pollLoop l1).2 = .error (.exc "poll sequence exhausted") ∧
        (pollLoop l2).2 = .error (.exc "poll sequence exhausted")) ∨
        ∃ r1 r2, (pollLoop l1).2 = .ok r1 ∧ (pollLoop l2).2 = .ok r2
          ∧ r1.status = r2.status) := by
  intro l1
  induction l1 with
  | nil =>
      intro l2 h
      cases l2 with
      | nil => simp [pollLoop]
      | cons q qs => simp at h
  | cons p ps ih =>
      intro l2 h
      cases l2 with
      | nil => simp at h
      | cons q qs =>
          simp only [List.map_cons, List.cons.injEq] at h
          obtain ⟨hpq, hrest⟩ := h
          by_cases hterm : p.status = "complete" ∨ p.status = "failed"
          · have hterm2 : q.status = "complete" ∨ q.status = "failed" := by
              rw [← hpq]; exact hterm
            rw [pollLoop, if_pos hterm, pollLoop, if_pos hterm2]
            exact ⟨rfl, Or.inr ⟨p, q, rfl, rfl, hpq⟩⟩
          · have hterm2 : ¬ (q.status = "complete" ∨ q.status = "failed") := by
              rw [← hpq]; exact hterm
            rw [pollLoop, if_neg hterm, pollLoop, if_neg hterm2]
            obtain ⟨hev, hres⟩ := ih hrest
            exact ⟨by rw [hev], hres⟩

/-- `_export_survey` with no folder anywhere raises before any event. -/
theorem exportSurvey_noFolder (st : SurveyState) (w : World) (oc : ExportOracle)
    (fmt : String) (h : st.responseFolder = none) :
    exportSurvey st w oc fmt none
      = ([], st, w, .error (.exc "No response folder assigned")) := by
  simp [exportSurvey, truthy, h]

/-- A failed terminal poll: `export failed` is raised, the state and
world are untouched, and the trace is the request plus the polls. -/
theorem exportSurvey_failed (st : SurveyState) (w : World) (oc : ExportOracle)
    (fmt : String) (fdr : String) (rep : PollReply)
    (hf : st.responseFolder = some fdr) (hfne : fdr ≠ "")
    (hterm : firstTerminal oc.polls = some rep) (hfail : rep.status = "failed") :
    exportSurvey st w oc fmt none
      = (Ev.netExportRequest :: (pollLoop oc.polls).1, st, w,
         .error (.exc "export failed")) := by
  have hok := pollLoop_ok_of_firstTerminal hterm
  obtain ⟨n, rf, rfile, resp, rdf⟩ := st
  simp only at hf
  subst hf
  simp [exportSurvey, resolvedFolder, truthy, hfne, hok, hfail]

/-- A complete terminal poll with a file id: the archive is fetched and
extracted to the deterministic path `folder/name.fmt`. -/
theorem exportSurvey_complete (st : SurveyState) (w : World) (oc : ExportOracle)
    (fmt : String) (fdr : String) (rep : PollReply) (fid : String)
    (hf : st.responseFolder = some fdr) (hfne : fdr ≠ "")
    (hterm : firstTerminal oc.polls = some rep) (hst : rep.status = "complete")
    (hfid : rep.fileId = some fid) :
    exportSurvey st w oc fmt none
      = (Ev.netExportRequest :: (pollLoop oc.polls).1 ++ [Ev.netFetch fid],
         { st with responsesFile := some (fdr ++ "/" ++ st.name ++ "." ++ fmt) },
         w.write (fdr ++ "/" ++ st.name ++ "." ++ fmt) oc.archive,
         .ok (fdr ++ "/" ++ st.name ++ "." ++ fmt)) := by
  have hok := pollLoop_ok_of_firstTerminal hterm
  have hnf : rep.status ≠ "failed" := by rw [hst]; decide
  obtain ⟨n, rf, rfile, resp, rdf⟩ := st
  simp only at hf
  subst hf
  simp [exportSurvey, resolvedFolder, truthy, hfne, hok, hnf, hfid]

theorem World.read_write (w : World) (p : String) (rows : List Row) :
    (w.write p rows).read p = some rows := by
  simp [World.read, World.write]

/-! ## General lemmas about the Response Store -/

/-- Decoding a freshly exported artifact: the two header-repeat rows
are discarded; fewer than two rows leaves an empty store and raises. -/
theorem decodePhase_fresh (evs : List Ev) (st : SurveyState) (w : World)
    (p : String) (rows : List Row)
    (hfile : st.responsesFile = some p) (hresp : st.responses = none)
    (hread : w.read p = some rows) :
    decodePhase evs st w
      = (evs ++ [Ev.fileRead p],
         { st with responses := some ((rows.drop 2).map mkResponse) }, w,
         if 2 ≤ rows.length then .ok ((rows.drop 2).map mkResponse)
         else .error .indexError) := by
  match rows with
  | [] => simp [decodePhase, hresp, hfile, hread]
  | [a] => simp [decodePhase, hresp, hfile, hread]
  | a :: b :: rest =>
      have hlen : 2 ≤ (a :: b :: rest).length := by simp [List.length_cons]
      simp [decodePhase, hresp, hfile, hread, hlen]

/-- A non-empty cached record sequence short-circuits the decode. -/
theorem decodePhase_cached (evs : List Ev) (st : SurveyState) (w : World)
    (l : List Response) (hresp : st.responses = some l) (hne : l ≠ []) :
    decodePhase evs st w = (evs, st, w, .ok l) := by
  rw [decodePhase, if_neg (by simp [hresp, hne])]
  simp [hresp]

/-- The full refresh path of `get_responses` under a successful export:
the row sequence is rebuilt from the archive just written at the
deterministic path. -/
theorem getResponsesBody_refresh (st : SurveyState) (w : World) (oc : ExportOracle)
    (fdr : String) (rep : PollReply) (fid : String)
    (hf : st.responseFolder = some fdr) (hfne : fdr ≠ "")
    (hterm : firstTerminal oc.polls = some rep) (hst : rep.status = "complete")
    (hfid : rep.fileId = some fid) :
    getResponsesBody st w oc none true
      = ((Ev.sleep :: Ev.netExportRequest :: (pollLoop oc.polls).1 ++ [Ev.netFetch fid])
           ++ [Ev.fileRead (fdr ++ "/" ++ st.name ++ "." ++ "csv")],
         { st with responsesFile := some (fdr ++ "/" ++ st.name ++ "." ++ "csv"),
                   responses := some ((oc.archive.drop 2).map mkResponse) },
         w.write (fdr ++ "/" ++ st.name ++ "." ++ "csv") oc.archive,
         if 2 ≤ oc.archive.length then .ok ((oc.archive.drop 2).map mkResponse)
         else .error .indexError) := by
  have hexp := exportSurvey_complete st w oc "csv" fdr rep fid hf hfne hterm hst hfid
  have hdec := decodePhase_fresh
    (Ev.sleep :: Ev.netExportRequest :: (pollLoop oc.polls).1 ++ [Ev.netFetch fid])
    { st with responsesFile := some (fdr ++ "/" ++ st.name ++ "." ++ "csv"), responses := none }
    (w.write (fdr ++ "/" ++ st.name ++ "." ++ "csv") oc.archive)
    (fdr ++ "/" ++ st.name ++ "." ++ "csv") oc.archive rfl rfl
    (World.read_write w (fdr ++ "/" ++ st.name ++ "." ++ "csv") oc.archive)
  rw [getResponsesBody, if_pos (Or.inl rfl), hexp]
  simpa using hdec

/-- The cached path of `get_responses`: an existing non-empty record
sequence is returned as is, with no events and no state change. -/
theorem get_responses_cached (st : SurveyState) (w : World) (oc : ExportOracle)
    (l : List Response) (hresp : st.responses = some l) (hne : l ≠ [])
    (hfile : truthy st.responsesFile) :
    get_responses st w oc none false = ([], st, w, some l) := by
  have h1 : truthy (none : Option String) = false := rfl
  rw [get_responses, getResponsesBody, if_neg (by simp [hfile, h1])]
  rw [decodePhase_cached [] st w l hresp hne]

/-- `get_responses` after a successful refresh returns the re-decoded
rows (given at least the two header-repeat rows in the archive). -/
theorem get_responses_refresh (st : SurveyState) (w : World) (oc : ExportOracle)
    (fdr : String) (rep : PollReply) (fid : String)
    (hf : st.responseFolder = some fdr) (hfne : fdr ≠ "")
    (hterm : firstTerminal oc.polls = some rep) (hst : rep.status = "complete")
    (hfid : rep.fileId = some fid) (hlen : 2 ≤ oc.archive.length) :
    get_responses st w oc none true
      = ((Ev.sleep :: Ev.netExportRequest :: (pollLoop oc.polls).1 ++ [Ev.netFetch fid])
           ++ [Ev.fileRead (fdr ++ "/" ++ st.name ++ "." ++ "csv")],
         { st with responsesFile := some (fdr ++ "/" ++ st.name ++ "." ++ "csv"),
                   responses := some ((oc.archive.drop 2).map mkResponse) },
         w.write (fdr ++ "/" ++ st.name ++ "." ++ "csv") oc.archive,
         some ((oc.archive.drop 2).map mkResponse)) := by
  rw [get_responses, getResponsesBody_refresh st w oc fdr rep fid hf hfne hterm hst hfid,
    if_pos hlen]

/-- Rebuilding the columnar table from an artifact on disk. -/
theorem create_responses_dataframe_reads (st : SurveyState) (w : World)
    (p : String) (rows : List Row)
    (hfile : st.responsesFile = some p) (hpne : p ≠ "") (hread : w.read p = some rows) :
    create_responses_dataframe st w
      = ([Ev.fileRead p], { st with responseDataframe := some (rows.drop 2) },
         some (rows.drop 2)) := by
  have htr : truthy st.responsesFile = true := by simp [truthy, hfile, hpne]
  rw [create_responses_dataframe, if_pos htr]
  simp [hfile, hread]

/-! ## General lemmas about the Filter Engine -/

theorem except_bind_ok {ε α β : Type} (a : α) (f : α → Except ε β) :
    (Except.ok a : Except ε α) >>= f = f a := rfl

/-- The row-path text predicate computes the spec predicate when the
filtered fields are present in the record. -/
theorem rowPassesText_ok (flt : List (Field × List Cell)) (resp : Response)
    (hpres : ∀ p ∈ flt, (resp.data.lookup p.1).isSome) :
    rowPassesText flt resp = .ok (passesText flt resp.data) := by
  induction flt with
  | nil => simp [rowPassesText, passesText]
  | cons q rest ih =>
      obtain ⟨f, vs⟩ := q
      obtain ⟨v, hv⟩ := Option.isSome_iff_exists.mp (hpres (f, vs) (List.mem_cons_self _ _))
      have hrest := ih (fun p hp => hpres p (List.mem_cons_of_mem _ hp))
      by_cases hmem : v ∈ vs
      · simp [rowPassesText, pyItem, hv, except_bind_ok, hmem, hrest,
          passesText, cellOf, List.all_cons, pure, Except.pure]
      · simp [rowPassesText, pyItem, hv, except_bind_ok, hmem,
          passesText, cellOf, List.all_cons, pure, Except.pure]

/-- The row-path text loop selects exactly the passing records, in
order, when the filtered fields are present everywhere. -/
theorem rowFilterTextGo_ok (flt : List (Field × List Cell)) :
    ∀ (resps acc : List Response),
      (∀ resp ∈ resps, ∀ p ∈ flt, (resp.data.lookup p.1).isSome) →
      rowFilterTextGo flt acc resps
        = .ok (acc ++ resps.filter (fun resp => passesText flt resp.data)) := by
  intro resps
  induction resps with
  | nil => intro acc _; simp [rowFilterTextGo]
  | cons r rest ih =>
      intro acc h
      have hr := rowPassesText_ok flt r (fun p hp => h r (List.mem_cons_self _ _) p hp)
      have hrest := fun resp hresp => h resp (List.mem_cons_of_mem _ hresp)
      rw [rowFilterTextGo]
      rw [hr, except_bind_ok]
      by_cases hpass : passesText flt r.data
      · rw [if_pos (by simp [hpass]), ih (acc ++ [r]) hrest]
        simp [List.filter_cons, hpass]
      · rw [if_neg (by simp [hpass]), ih acc hrest]
        simp [List.filter_cons, hpass]

theorem rowFilterText_ok (flt : List (Field × List Cell)) (resps : List Response)
    (h : ∀ resp ∈ resps, ∀ p ∈ flt, (resp.data.lookup p.1).isSome) :
    rowFilterText resps flt
      = .ok (resps.filter (fun resp => passesText flt resp.data)) := by
  rw [rowFilterText, rowFilterTextGo_ok flt resps [] h]
  rfl

/-- Building a mask succeeds and is the pointwise test when the field is
present in every row. -/
theorem buildMask_ok (f : Field) (test : Cell → Bool) :
    ∀ (table : List Row), (∀ r ∈ table, (r.lookup f).isSome) →
      buildMask f test table = .ok (table.map (fun r => test (cellOf r f))) := by
  intro table
  induction table with
  | nil => intro _; simp [buildMask]
  | cons r rest ih =>
      intro h
      obtain ⟨v, hv⟩ := Option.isSome_iff_exists.mp (h r (List.mem_cons_self _ _))
      rw [buildMask]
      rw [pyItem, hv]
      rw [except_bind_ok, ih (fun x hx => h x (List.mem_cons_of_mem _ hx)), except_bind_ok]
      simp [cellOf, hv, pure, Except.pure]

/-- The columnar text masks are the per-field membership tests. -/
theorem dfMasksText_ok (table : List Row) :
    ∀ (flt : List (Field × List Cell)),
      (∀ p ∈ flt, ∀ r ∈ table, (r.lookup p.1).isSome) →
      dfMasksText table flt
        = .ok (flt.map (fun p => table.map (fun r => p.2.contains (cellOf r p.1)))) := by
  intro flt
  induction flt with
  | nil => intro _; simp [dfMasksText]
  | cons q rest ih =>
      intro h
      obtain ⟨f, vs⟩ := q
      rw [dfMasksText]
      rw [buildMask_ok f _ table (h (f, vs) (List.mem_cons_self _ _)), except_bind_ok]
      rw [ih (fun p hp => h p (List.mem_cons_of_mem _ hp)), except_bind_ok]
      simp [pure, Except.pure, cellOf]

/-- Sequential `loc[mask]` selections keep the rows all masks accept. -/
theorem foldl_dfSelect :
    ∀ (masks : List (List Bool)) (rows : List (Nat × Row)),
      masks.foldl dfSelect rows
        = rows.filter (fun q => masks.all (fun m => m.getD q.1 false)) := by
  intro masks
  induction masks with
  | nil => intro rows; simp [List.filter_true]
  | cons m ms ih =>
      intro rows
      rw [List.foldl_cons, ih, dfSelect, List.filter_filter]
      apply List.filter_congr
      intro q _
      simp [List.all_cons, Bool.and_comm]

theorem getD_of_mem_enum {l : List Row} {i : Nat} {r : Row} (g : Row → Bool)
    (h : (i, r) ∈ l.enum) : (l.map g).getD i false = g r := by
  have hget : l[i]? = some r := List.mk_mem_enum_iff_getElem?.mp h
  rw [List.getD_eq_getElem?_getD, List.getElem?_map, hget]
  rfl

theorem all_map_getD (table : List Row) (q : Nat × Row)
    (hq : (q.1, q.2) ∈ table.enum) :
    ∀ gs : List (Row → Bool),
      (gs.map (fun g => table.map g)).all (fun m => m.getD q.1 false)
        = gs.all (fun g => g q.2) := by
  intro gs
  induction gs with
  | nil => rfl
  | cons g gsr ih =>
      rw [List.map_cons, List.all_cons, List.all_cons, ih, getD_of_mem_enum g hq]

theorem enumFrom_filter_snd (p : Row → Bool) :
    ∀ (l : List Row) (n : Nat),
      ((List.enumFrom n l).filter (fun q => p q.2)).map Prod.snd = l.filter p := by
  intro l
  induction l with
  | nil => intro n; simp
  | cons a t ih =>
      intro n
      rw [List.enumFrom, List.filter_cons]
      by_cases hp : p a
      · simp only [hp]
        rw [List.filter_cons] at *
        simp [hp, ih]
      · simp [hp, ih]

/-- Applying per-field masks built over the whole table selects exactly
the rows passing the conjunction of the tests. -/
theorem dfApplyMasks_maps (table : List Row) (gs : List (Row → Bool)) :
    dfApplyMasks table (gs.map (fun g => table.map g))
      = table.filter (fun r => gs.all (fun g => g r)) := by
  rw [dfApplyMasks, foldl_dfSelect]
  have hcongr :
      table.enum.filter
          (fun q => (gs.map (fun g => table.map g)).all (fun m => m.getD q.1 false))
        = table.enum.filter (fun q => gs.all (fun g => g q.2)) := by
    apply List.filter_congr
    intro q hq
    exact all_map_getD table q hq gs
  rw [hcongr]
  have := enumFrom_filter_snd (fun r => gs.all (fun g => g r)) table 0
  simpa [List.enum] using this

theorem truthy_isSome {o : Option String} (h : truthy o = true) : o.isSome := by
  cases o with
  | none => simp [truthy] at h
  | some s => rfl

theorem checkFields_ok (r0 : Response) :
    ∀ flt : List (Field × List Cell),
      (∀ p ∈ flt, truthy (r0.data.lookup p.1)) → checkFields r0 flt = .ok () := by
  intro flt
  induction flt with
  | nil => intro _; rfl
  | cons q rest ih =>
      intro h
      obtain ⟨f, vs⟩ := q
      rw [checkFields, if_pos (h (f, vs) (List.mem_cons_self _ _))]
      exact ih (fun p hp => h p (List.mem_cons_of_mem _ hp))

theorem checkTextValues_ok :
    ∀ flt : List (Field × List Cell), (∀ p ∈ flt, p.2 ≠ []) →
      checkTextValues flt = .ok () := by
  intro flt
  induction flt with
  | nil => intro _; rfl
  | cons q rest ih =>
      intro h
      obtain ⟨f, vs⟩ := q
      rw [checkTextValues, if_neg (by simp [h (f, vs) (List.mem_cons_self _ _)])]
      exact ih (fun p hp => h p (List.mem_cons_of_mem _ hp))

/-- The row path of the text filter on a consistent snapshot selects
exactly the records passing the AND/OR membership predicate. -/
theorem filterTextCore_row (st : SurveyState) (tbl : List Row)
    (flt : List (Field × List Cell))
    (hresp : st.responses = some (tbl.map mkResponse))
    (hne : flt ≠ []) (htbl : tbl ≠ [])
    (hpres : ∀ r ∈ tbl, ∀ p ∈ flt, truthy (r.lookup p.1))
    (hvals : ∀ p ∈ flt, p.2 ≠ []) :
    filterTextCore st flt false
      = .ok (.rows ((tbl.filter (passesText flt)).map mkResponse)) := by
  obtain ⟨t0, trest, rfl⟩ : ∃ t0 trest, tbl = t0 :: trest := by
    cases tbl with
    | nil => exact absurd rfl htbl
    | cons a t => exact ⟨a, t, rfl⟩
  have hrow : rowFilterText ((t0 :: trest).map mkResponse) flt
      = .ok (((t0 :: trest).map mkResponse).filter
          (fun resp => passesText flt resp.data)) := by
    apply rowFilterText_ok
    intro resp hresp p hp
    obtain ⟨r, hr, rfl⟩ := List.mem_map.mp hresp
    exact truthy_isSome (hpres r hr p hp)
  have hfields : checkFields (mkResponse t0) flt = .ok () :=
    checkFields_ok (mkResponse t0) flt
      (fun p hp => hpres t0 (List.mem_cons_self _ _) p hp)
  have hvalsok : checkTextValues flt = .ok () := checkTextValues_ok flt hvals
  rw [filterTextCore, if_neg (by simp [hne]), hresp, List.map_cons]
  show (do
      checkFields (mkResponse t0) flt
      checkTextValues flt
      do
        let l ← rowFilterText (mkResponse t0 :: trest.map mkResponse) flt
        pure (FilterResult.rows l) : Except PyErr FilterResult) = _
  rw [hfields, except_bind_ok, hvalsok, except_bind_ok, ← List.map_cons mkResponse, hrow,
    except_bind_ok]
  rw [List.filter_map]
  rfl

/-- The columnar path of the text filter on the same snapshot selects
exactly the rows passing the AND/OR membership predicate. -/
theorem filterTextCore_df (st : SurveyState) (tbl : List Row)
    (flt : List (Field × List Cell))
    (hresp : st.responses = some (tbl.map mkResponse))
    (hdf : st.responseDataframe = some tbl)
    (hne : flt ≠ []) (htbl : tbl ≠ [])
    (hpres : ∀ r ∈ tbl, ∀ p ∈ flt, truthy (r.lookup p.1))
    (hvals : ∀ p ∈ flt, p.2 ≠ []) :
    filterTextCore st flt true = .ok (.table (tbl.filter (passesText flt))) := by
  obtain ⟨t0, trest, htl⟩ : ∃ t0 trest, tbl = t0 :: trest := by
    cases tbl with
    | nil => exact absurd rfl htbl
    | cons a t => exact ⟨a, t, rfl⟩
  have hmasks : dfMasksText tbl flt
      = .ok (flt.map (fun p => tbl.map (fun r => p.2.contains (cellOf r p.1)))) := by
    apply dfMasksText_ok
    intro p hp r hr
    exact truthy_isSome (hpres r hr p hp)
  have hfields : checkFields (mkResponse t0) flt = .ok () :=
    checkFields_ok (mkResponse t0) flt
      (fun p hp => hpres t0 (htl ▸ List.mem_cons_self _ _) p hp)
  have hvalsok : checkTextValues flt = .ok () := checkTextValues_ok flt hvals
  rw [filterTextCore, if_neg (by simp [hne]), hresp, htl, List.map_cons]
  show (do
      checkFields (mkResponse t0) flt
      checkTextValues flt
      match st.responseDataframe with
      | none => Except.error PyErr.typeError
      | some table => do
          let masks ← dfMasksText table flt
          pure (FilterResult.table (dfApplyMasks table masks)) : Except PyErr FilterResult) = _
  rw [hfields, except_bind_ok, hvalsok, except_bind_ok, hdf]
  show (do
      let masks ← dfMasksText tbl flt
      pure (FilterResult.table (dfApplyMasks tbl masks)) : Except PyErr FilterResult) = _
  rw [hmasks, except_bind_ok]
  have hgs : flt.map (fun p => tbl.map (fun r => p.2.contains (cellOf r p.1)))
      = (flt.map (fun p (r : Row) => p.2.contains (cellOf r p.1))).map
          (fun g => tbl.map g) := by
    rw [List.map_map]
    rfl
  rw [hgs, dfApplyMasks_maps]
  have hall : ∀ (fl : List (Field × List Cell)) (r : Row),
      ((fl.map (fun p (r : Row) => p.2.contains (cellOf r p.1))).all (fun g => g r))
        = passesText fl r := by
    intro fl r
    induction fl with
    | nil => rfl
    | cons q rest ih =>
        simp only [List.map_cons, List.all_cons, ih, passesText]
  simp only [hall]
  rw [htl]
  rfl

theorem filterRefresh_skip (st : SurveyState) (w : World) (oc : ExportOracle)
    (hdf : st.responseDataframe ≠ none) :
    filterRefresh st w oc none false = ([], st, w) := by
  rw [filterRefresh, if_neg]
  simp [truthy, hdf]

theorem filter_responses_by_text_skip (st : SurveyState) (w : World)
    (oc : ExportOracle) (flt : List (Field × List Cell)) (df : Bool)
    (hdf : st.responseDataframe ≠ none) :
    filter_responses_by_text st w oc flt none none false df
      = ([], st, w, filterTextCore st flt df) := by
  rw [filter_responses_by_text, filterRefresh_skip st w oc hdf]

theorem filter_responses_by_date_skip (st : SurveyState) (w : World)
    (oc : ExportOracle) (flt : List (Field × List Cell)) (df : Bool)
    (hdf : st.responseDataframe ≠ none) :
    filter_responses_by_date st w oc flt none none false df
      = ([], st, w, filterDateCore st flt df) := by
  rw [filter_responses_by_date, filterRefresh_skip st w oc hdf]

/-! ## Claim theorems -/

/-- C1, counterexample: over the same materialized snapshot (the spec's
own date example) the row-sequence path and the columnar path of the
date filter select DIFFERENT response-id sets — the row path matches no
record while the columnar path matches `R_1` — so path equivalence
fails for date FilterSpecs. -/
theorem C1_date_breaks_path_equivalence :
    resultIds (filter_responses_by_date exDateState exWorld exOracle exDateFlt
        none none false false).2.2.2
      ≠ resultIds (filter_responses_by_date exDateState exWorld exOracle exDateFlt
        none none false true).2.2.2 := by
  decide

/-- C1, amended: for every materialized Response Store and every valid
TEXT FilterSpec, the row-sequence path (`dataFrame=false`) and the
columnar path (`dataFrame=true`) over the same snapshot produce the same
list of matching response identifiers, namely those of the rows passing
the membership predicate. -/
theorem C1_text_paths_same_ids (st : SurveyState) (w : World) (oc : ExportOracle)
    (tbl : List Row) (flt : List (Field × List Cell))
    (hresp : st.responses = some (tbl.map mkResponse))
    (hdf : st.responseDataframe = some tbl)
    (hne : flt ≠ []) (htbl : tbl ≠ [])
    (hpres : ∀ r ∈ tbl, ∀ p ∈ flt, truthy (r.lookup p.1))
    (hvals : ∀ p ∈ flt, p.2 ≠ []) :
    resultIds (filter_responses_by_text st w oc flt none none false false).2.2.2
      = resultIds (filter_responses_by_text st w oc flt none none false true).2.2.2
    ∧ resultIds (filter_responses_by_text st w oc flt none none false false).2.2.2
      = some ((tbl.filter (passesText flt)).map (fun r => r.lookup "ResponseId")) := by
  have hdfne : st.responseDataframe ≠ none := by rw [hdf]; exact Option.some_ne_none _
  rw [filter_responses_by_text_skip st w oc flt false hdfne,
    filter_responses_by_text_skip st w oc flt true hdfne]
  rw [show (([], st, w, filterTextCore st flt false) :
      List Ev × SurveyState × World × Except PyErr FilterResult).2.2.2
      = filterTextCore st flt false from rfl]
  rw [show (([], st, w, filterTextCore st flt true) :
      List Ev × SurveyState × World × Except PyErr FilterResult).2.2.2
      = filterTextCore st flt true from rfl]
  rw [filterTextCore_row st tbl flt hresp hne htbl hpres hvals,
    filterTextCore_df st tbl flt hresp hdf hne htbl hpres hvals]
  constructor
  · simp only [resultIds, List.map_map]
    rfl
  · simp only [resultIds, List.map_map]
    rfl

/-- C1, witness: the amended equivalence at the spec's text example. -/
theorem C1_text_paths_same_ids_witness :
    resultIds (filter_responses_by_text exTextState exWorld exOracle exTextFlt
        none none false false).2.2.2
      = resultIds (filter_responses_by_text exTextState exWorld exOracle exTextFlt
        none none false true).2.2.2 :=
  (C1_text_paths_same_ids exTextState exWorld exOracle
    [exTextRow1, exTextRow2, exTextRow3] exTextFlt rfl rfl (by decide) (by decide)
    (by decide) (by decide)).1

/-- C2: the row-path date filter at the spec's example.  The claim (and
the method docstring) expect exactly the first record to pass
`{RecordedDate: ["2021-03-01 00:00:00", "before"]}`; the code returns no
record at all, because `_compare_timestamps` returns `None` for the
documented mode string `"before"` (only the exact strings `"b"`/`"a"`
select a comparison), and even for `"b"` the comparison is inverted:
the earlier stamp yields `False`. -/
theorem C2_row_date_filter_at_spec_example :
    (filter_responses_by_date exDateState exWorld exOracle exDateFlt
        none none false false).2.2.2
      = .ok (.rows []) ∧
    compare_timestamps "2021-01-01 00:00:00" "2021-03-01 00:00:00" (some "before")
      = .ok none ∧
    compare_timestamps "2021-01-01 00:00:00" "2021-03-01 00:00:00" (some "b")
      = .ok (some false) :=
  ⟨by decide, by decide, by decide⟩

/-- C3: the text filter (row path) selects exactly the records whose
value at every filtered field belongs to that field's acceptable set —
AND across fields, OR within a field's value set — in order. -/
theorem C3_text_filter_and_or (st : SurveyState) (w : World) (oc : ExportOracle)
    (tbl : List Row) (flt : List (Field × List Cell))
    (hresp : st.responses = some (tbl.map mkResponse))
    (hdf : st.responseDataframe ≠ none)
    (hne : flt ≠ []) (htbl : tbl ≠ [])
    (hpres : ∀ r ∈ tbl, ∀ p ∈ flt, truthy (r.lookup p.1))
    (hvals : ∀ p ∈ flt, p.2 ≠ []) :
    (filter_responses_by_text st w oc flt none none false false).2.2.2
      = .ok (.rows ((tbl.filter (passesText flt)).map mkResponse))
    ∧ (∀ resp : Response,
        resp ∈ (tbl.filter (passesText flt)).map mkResponse
          ↔ ∃ r ∈ tbl, resp = mkResponse r ∧ passesText flt r = true) := by
  constructor
  · rw [filter_responses_by_text_skip st w oc flt false hdf]
    rw [show (([], st, w, filterTextCore st flt false) :
        List Ev × SurveyState × World × Except PyErr FilterResult).2.2.2
        = filterTextCore st flt false from rfl]
    exact filterTextCore_row st tbl flt hresp hne htbl hpres hvals
  · intro resp
    simp only [List.mem_map, List.mem_filter]
    constructor
    · rintro ⟨r, ⟨hr, hp⟩, heq⟩
      exact ⟨r, hr, heq.symm, hp⟩
    · rintro ⟨r, hr, heq, hp⟩
      exact ⟨r, ⟨hr, hp⟩, heq.symm⟩

/-- C3, witness: at the spec's example only the first record passes. -/
theorem C3_text_filter_and_or_witness :
    (filter_responses_by_text exTextState exWorld exOracle exTextFlt
        none none false false).2.2.2 = .ok (.rows [mkResponse exTextRow1]) := by
  have h := (C3_text_filter_and_or exTextState exWorld exOracle
    [exTextRow1, exTextRow2, exTextRow3] exTextFlt rfl (by decide) (by decide)
    (by decide) (by decide) (by decide)).1
  exact h.trans (by decide)

theorem except_bind_error {ε α β : Type} (e : ε) (f : α → Except ε β) :
    (Except.error e : Except ε α) >>= f = .error e := rfl

theorem checkFields_error_mem (r0 : Response) :
    ∀ (flt : List (Field × List Cell)) (m f : String),
      checkFields r0 flt = .error (.excField m f) →
      m = "is not a valid response field" ∧ f ∈ flt.map Prod.fst := by
  intro flt
  induction flt with
  | nil => intro m f h; simp [checkFields] at h
  | cons q rest ih =>
      intro m f h
      obtain ⟨g, vs⟩ := q
      by_cases ht : truthy (r0.data.lookup g)
      · rw [checkFields, if_pos ht] at h
        obtain ⟨hm, hf⟩ := ih m f h
        exact ⟨hm, List.mem_cons_of_mem _ hf⟩
      · rw [checkFields, if_neg ht] at h
        simp only [Except.error.injEq, PyErr.excField.injEq] at h
        exact ⟨h.1.symm, by rw [← h.2]; exact List.mem_cons_self _ _⟩

theorem checkDateValues_error_mem :
    ∀ (flt : List (Field × List Cell)) (m f : String),
      checkDateValues flt = .error (.excField m f) →
      m = "value must be a date and before/after pair" ∧ f ∈ flt.map Prod.fst := by
  intro flt
  induction flt with
  | nil => intro m f h; simp [checkDateValues] at h
  | cons q rest ih =>
      intro m f h
      obtain ⟨g, vs⟩ := q
      by_cases hv : vs = [] ∨ vs.length ≠ 2
      · rw [checkDateValues, if_pos hv] at h
        simp only [Except.error.injEq, PyErr.excField.injEq] at h
        exact ⟨h.1.symm, by rw [← h.2]; exact List.mem_cons_self _ _⟩
      · rw [checkDateValues, if_neg hv] at h
        obtain ⟨hm, hf⟩ := ih m f h
        exact ⟨hm, List.mem_cons_of_mem _ hf⟩

theorem checkTextValues_error_mem :
    ∀ (flt : List (Field × List Cell)) (m f : String),
      checkTextValues flt = .error (.excField m f) →
      m = "values cannot be empty" ∧ f ∈ flt.map Prod.fst ∧ (f, []) ∈ flt := by
  intro flt
  induction flt with
  | nil => intro m f h; simp [checkTextValues] at h
  | cons q rest ih =>
      intro m f h
      obtain ⟨g, vs⟩ := q
      by_cases hv : vs = []
      · rw [checkTextValues, if_pos hv] at h
        simp only [Except.error.injEq, PyErr.excField.injEq] at h
        refine ⟨h.1.symm, ?_, ?_⟩
        · rw [← h.2]
          exact List.mem_cons_self _ _
        · rw [← h.2, hv]
          exact List.mem_cons_self _ _
      · rw [checkTextValues, if_neg hv] at h
        obtain ⟨hm, hf, hmem⟩ := ih m f h
        exact ⟨hm, List.mem_cons_of_mem _ hf, List.mem_cons_of_mem _ hmem⟩

/-- A field-validation failure is surfaced unchanged by the text core. -/
theorem filterTextCore_checkFields_error (st : SurveyState)
    (flt : List (Field × List Cell)) (df : Bool) (r0 : Response)
    (rs : List Response) (e : PyErr)
    (hresp : st.responses = some (r0 :: rs)) (hne : flt ≠ [])
    (hbad : checkFields r0 flt = .error e) :
    filterTextCore st flt df = .error e := by
  rw [filterTextCore, if_neg (by simp [hne]), hresp]
  show (do
      checkFields r0 flt
      checkTextValues flt
      if df then
        match st.responseDataframe with
        | none => Except.error PyErr.typeError
        | some table => do
            let masks ← dfMasksText table flt
            pure (FilterResult.table (dfApplyMasks table masks))
      else do
        let l ← rowFilterText (r0 :: rs) flt
        pure (FilterResult.rows l) : Except PyErr FilterResult) = _
  rw [hbad]
  rfl

/-- An empty-value-set failure is surfaced unchanged by the text core. -/
theorem filterTextCore_checkTextValues_error (st : SurveyState)
    (flt : List (Field × List Cell)) (df : Bool) (r0 : Response)
    (rs : List Response) (e : PyErr)
    (hresp : st.responses = some (r0 :: rs)) (hne : flt ≠ [])
    (hfields : checkFields r0 flt = .ok ()) (hbad : checkTextValues flt = .error e) :
    filterTextCore st flt df = .error e := by
  rw [filterTextCore, if_neg (by simp [hne]), hresp]
  show (do
      checkFields r0 flt
      checkTextValues flt
      if df then
        match st.responseDataframe with
        | none => Except.error PyErr.typeError
        | some table => do
            let masks ← dfMasksText table flt
            pure (FilterResult.table (dfApplyMasks table masks))
      else do
        let l ← rowFilterText (r0 :: rs) flt
        pure (FilterResult.rows l) : Except PyErr FilterResult) = _
  rw [hfields, except_bind_ok, hbad]
  rfl

/-- A malformed date tuple is surfaced unchanged by the date core. -/
theorem filterDateCore_checkDateValues_error (st : SurveyState)
    (flt : List (Field × List Cell)) (df : Bool) (r0 : Response)
    (rs : List Response) (e : PyErr)
    (hresp : st.responses = some (r0 :: rs)) (hne : flt ≠ [])
    (hfields : checkFields r0 flt = .ok ()) (hbad : checkDateValues flt = .error e) :
    filterDateCore st flt df = .error e := by
  rw [filterDateCore, if_neg (by simp [hne]), hresp]
  show (do
      checkFields r0 flt
      checkDateValues flt
      if df then
        match st.responseDataframe with
        | none => Except.error PyErr.typeError
        | some table => do
            let masks ← dfMasksDate table flt
            pure (FilterResult.table (dfApplyMasks table masks))
      else do
        let l ← rowFilterDate (r0 :: rs) flt
        pure (FilterResult.rows l) : Except PyErr FilterResult) = _
  rw [hfields, except_bind_ok, hbad]
  rfl

/-- C4, counterexample: calling `filter_responses_by_text` with an EMPTY
filter on a store that has never been materialized performs the export
network traffic (request, poll, fetch) BEFORE raising the empty-filter
precondition failure — so the failure is not raised before network I/O. -/
theorem C4_refresh_runs_before_precondition_check :
    ((filter_responses_by_text exFreshState (⟨[]⟩ : World) exScenarioOracle []
        none none false false).1).any Ev.isNetwork = true
    ∧ (filter_responses_by_text exFreshState (⟨[]⟩ : World) exScenarioOracle []
        none none false false).2.2.2
      = .error (.exc "filters dictionary cannot be empty") :=
  ⟨by decide, by decide⟩

/-- C4, amended: when the Response Store is already materialized and no
refresh is requested, both filter methods run without any I/O event, the
export precondition (missing output location) is raised before any
event, and every field-specific precondition failure — unknown field,
empty text value set, malformed date tuple — surfaces an error naming
the offending filter field. -/
theorem C4_preconditions_fast_when_materialized (st : SurveyState) (w : World)
    (oc : ExportOracle) (flt : List (Field × List Cell)) (df : Bool) (fmt : String)
    (hdf : st.responseDataframe ≠ none) :
    (filter_responses_by_text st w oc flt none none false df).1 = []
    ∧ (filter_responses_by_date st w oc flt none none false df).1 = []
    ∧ (st.responseFolder = none →
        exportSurvey st w oc fmt none
          = ([], st, w, .error (.exc "No response folder assigned")))
    ∧ (flt = [] →
        (filter_responses_by_text st w oc flt none none false df).2.2.2
          = .error (.exc "filters dictionary cannot be empty"))
    ∧ (∀ r0 rs m f, st.responses = some (r0 :: rs) → flt ≠ [] →
        checkFields r0 flt = .error (.excField m f) →
        (filter_responses_by_text st w oc flt none none false df).2.2.2
            = .error (.excField m f)
          ∧ m = "is not a valid response field" ∧ f ∈ flt.map Prod.fst)
    ∧ (∀ r0 rs m f, st.responses = some (r0 :: rs) → flt ≠ [] →
        checkFields r0 flt = .ok () →
        checkTextValues flt = .error (.excField m f) →
        (filter_responses_by_text st w oc flt none none false df).2.2.2
            = .error (.excField m f)
          ∧ m = "values cannot be empty" ∧ f ∈ flt.map Prod.fst ∧ (f, []) ∈ flt)
    ∧ (∀ r0 rs m f, st.responses = some (r0 :: rs) → flt ≠ [] →
        checkFields r0 flt = .ok () →
        checkDateValues flt = .error (.excField m f) →
        (filter_responses_by_date st w oc flt none none false df).2.2.2
            = .error (.excField m f)
          ∧ m = "value must be a date and before/after pair"
          ∧ f ∈ flt.map Prod.fst) := by
  refine ⟨?_, ?_, ?_, ?_, ?_, ?_, ?_⟩
  · rw [filter_responses_by_text_skip st w oc flt df hdf]
  · rw [filter_responses_by_date_skip st w oc flt df hdf]
  · intro h
    exact exportSurvey_noFolder st w oc fmt h
  · intro hempty
    rw [filter_responses_by_text_skip st w oc flt df hdf]
    show filterTextCore st flt df = _
    rw [filterTextCore, if_pos hempty]
  · intro r0 rs m f hresp hne hbad
    obtain ⟨hm, hf⟩ := checkFields_error_mem r0 flt m f hbad
    refine ⟨?_, hm, hf⟩
    rw [filter_responses_by_text_skip st w oc flt df hdf]
    show filterTextCore st flt df = _
    exact filterTextCore_checkFields_error st flt df r0 rs _ hresp hne hbad
  · intro r0 rs m f hresp hne hfields hbad
    obtain ⟨hm, hf, hmem⟩ := checkTextValues_error_mem flt m f hbad
    refine ⟨?_, hm, hf, hmem⟩
    rw [filter_responses_by_text_skip st w oc flt df hdf]
    show filterTextCore st flt df = _
    exact filterTextCore_checkTextValues_error st flt df r0 rs _ hresp hne hfields hbad
  · intro r0 rs m f hresp hne hfields hbad
    obtain ⟨hm, hf⟩ := checkDateValues_error_mem flt m f hbad
    refine ⟨?_, hm, hf⟩
    rw [filter_responses_by_date_skip st w oc flt df hdf]
    show filterDateCore st flt df = _
    exact filterDateCore_checkDateValues_error st flt df r0 rs _ hresp hne hfields hbad

/-- C4, witness: the amended statement applied to a materialized store
with no folder, an unknown field `Q9`, an empty value set `{Q1: []}`,
and a one-element date tuple. -/
theorem C4_preconditions_fast_when_materialized_witness :
    (filter_responses_by_text exNoFolderState exEmptyWorld exOracle
        [("Q9", ["A"])] none none false false).1 = []
    ∧ exportSurvey exNoFolderState exEmptyWorld exOracle "csv" none
        = ([], exNoFolderState, exEmptyWorld,
           .error (.exc "No response folder assigned"))
    ∧ (filter_responses_by_text exNoFolderState exEmptyWorld exOracle
        [("Q9", ["A"])] none none false false).2.2.2
        = .error (.excField "is not a valid response field" "Q9")
    ∧ (filter_responses_by_text exNoFolderState exEmptyWorld exOracle
        [("Q1", [])] none none false false).2.2.2
        = .error (.excField "values cannot be empty" "Q1")
    ∧ (filter_responses_by_date exNoFolderState exEmptyWorld exOracle
        [("Q1", ["2021-01-01 00:00:00"])] none none false false).2.2.2
        = .error (.excField "value must be a date and before/after pair" "Q1") := by
  have h1 := C4_preconditions_fast_when_materialized exNoFolderState exEmptyWorld
    exOracle [("Q9", ["A"])] false "csv" (by decide)
  have h2 := C4_preconditions_fast_when_materialized exNoFolderState exEmptyWorld
    exOracle [("Q1", ["2021-01-01 00:00:00"])] false "csv" (by decide)
  have h3 := C4_preconditions_fast_when_materialized exNoFolderState exEmptyWorld
    exOracle [("Q1", [])] false "csv" (by decide)
  refine ⟨h1.1, h1.2.2.1 rfl, ?_, ?_, ?_⟩
  · exact (h1.2.2.2.2.1 (mkResponse exTextRow1) [] _ "Q9" rfl (by decide) (by decide)).1
  · exact (h3.2.2.2.2.2.1 (mkResponse exTextRow1) [] _ "Q1" rfl (by decide) (by decide)
      (by decide)).1
  · exact (h2.2.2.2.2.2.2 (mkResponse exTextRow1) [] _ "Q1" rfl (by decide) (by decide)
      (by decide)).1

/-- Variant of `exportSurvey_failed` conditioned directly on the poll
loop outcome (used to compare runs over different oracles). -/
theorem exportSurvey_failed_poll (st : SurveyState) (w : World) (oc : ExportOracle)
    (fmt : String) (fdr : String) (rep : PollReply)
    (hf : st.responseFolder = some fdr) (hfne : fdr ≠ "")
    (hok : (pollLoop oc.polls).2 = .ok rep) (hfail : rep.status = "failed") :
    exportSurvey st w oc fmt none
      = (Ev.netExportRequest :: (pollLoop oc.polls).1, st, w,
         .error (.exc "export failed")) := by
  obtain ⟨n, rf, rfile, resp, rdf⟩ := st
  simp only at hf
  subst hf
  simp [exportSurvey, resolvedFolder, truthy, hfne, hok, hfail]

/-- C5: terminal behaviour of the export state machine.  If the first
terminal poll status is `failed`, the run raises `export failed`, no
artifact fetch request appears in the trace, and the whole run is
unchanged under any change of the `fileId` fields of the poll replies
(the file id is never read).  If it is `complete` with a (protocol
invariant: non-empty) `fileId`, the run succeeds, the fetch for that
file id is issued, and the extracted path is recorded. -/
theorem C5_export_terminal_states (st : SurveyState) (w : World) (oc : ExportOracle)
    (fmt : String) (fdr : String) (rep : PollReply) (fid : String)
    (hf : st.responseFolder = some fdr) (hfne : fdr ≠ "")
    (hterm : firstTerminal oc.polls = some rep) :
    (rep.status = "failed" →
      (exportSurvey st w oc fmt none).2.2.2 = .error (.exc "export failed")
      ∧ (∀ s, Ev.netFetch s ∉ (exportSurvey st w oc fmt none).1)
      ∧ (∀ polls2 : List PollReply,
          polls2.map PollReply.status = oc.polls.map PollReply.status →
          exportSurvey st w { oc with polls := polls2 } fmt none
            = exportSurvey st w oc fmt none))
    ∧ (rep.status = "complete" → rep.fileId = some fid → fid ≠ "" →
        (exportSurvey st w oc fmt none).2.2.2
          = .ok (fdr ++ "/" ++ st.name ++ "." ++ fmt)
        ∧ Ev.netFetch fid ∈ (exportSurvey st w oc fmt none).1
        ∧ (exportSurvey st w oc fmt none).2.1.responsesFile
          = some (fdr ++ "/" ++ st.name ++ "." ++ fmt)) := by
  have hok := pollLoop_ok_of_firstTerminal hterm
  constructor
  · intro hfail
    have hexp := exportSurvey_failed_poll st w oc fmt fdr rep hf hfne hok hfail
    refine ⟨by rw [hexp], ?_, ?_⟩
    · intro s hmem
      rw [hexp] at hmem
      rcases List.mem_cons.mp hmem with h1 | h2
      · simp at h1
      · have := pollLoop_events oc.polls _ h2
        simp at this
    · intro polls2 hstat
      obtain ⟨hev, hres⟩ := pollLoop_status_congr hstat
      rcases hres with ⟨_, h2⟩ | ⟨r1, r2, h1, h2, hs⟩
      · rw [hok] at h2
        cases h2
      · have hr2 : r2 = rep := by
          rw [h2] at hok
          injection hok
        have hfail1 : r1.status = "failed" := by rw [hs, hr2, hfail]
        rw [exportSurvey_failed_poll st w { oc with polls := polls2 } fmt fdr r1
            hf hfne h1 hfail1,
          exportSurvey_failed_poll st w oc fmt fdr rep hf hfne hok hfail, hev]
  · intro hst hfid _
    have hexp := exportSurvey_complete st w oc fmt fdr rep fid hf hfne hterm hst hfid
    refine ⟨by rw [hexp], ?_, by rw [hexp]⟩
    rw [hexp]
    simp

/-- C5, witness: the spec scenario `[50%, in_progress]`,
`[100%, complete, fileId="f1"]` fetches `f1` and yields the path. -/
theorem C5_export_terminal_states_witness :
    (exportSurvey exFreshState exWorld exScenarioOracle "csv" none).2.2.2
      = .ok "out/S.csv"
    ∧ Ev.netFetch "f1" ∈ (exportSurvey exFreshState exWorld exScenarioOracle
        "csv" none).1 := by
  have h := (C5_export_terminal_states exFreshState exWorld exScenarioOracle "csv"
    "out" ⟨"complete", some "f1", 100⟩ "f1" rfl (by decide) (by decide)).2
    rfl rfl (by decide)
  exact ⟨h.1.trans (by decide), h.2.1⟩

theorem eq_empty_of_length_zero (s : String) (h : s.length = 0) : s = "" := by
  obtain ⟨data⟩ := s
  have h2 : data.length = 0 := h
  rw [List.length_eq_zero] at h2
  rw [h2]

theorem append_ne_empty (a b : String) (hb : b ≠ "") : a ++ b ≠ "" := by
  intro h
  apply hb
  apply eq_empty_of_length_zero
  have h0 : (a ++ b).length = 0 := by rw [h]; rfl
  rw [String.length_append] at h0
  exact Nat.eq_zero_of_add_eq_zero_left h0

/-- A successful export for ANY folder argument: the archive is fetched
and extracted to `resolvedFolder/name.fmt`, whether the folder comes
from the argument (redirection) or from the stored `responseFolder`. -/
theorem exportSurvey_complete_any (st : SurveyState) (w : World) (oc : ExportOracle)
    (fmt : String) (folderName : Option String) (rep : PollReply) (fid : String)
    (hguard : truthy folderName = true ∨ truthy st.responseFolder = true)
    (hterm : firstTerminal oc.polls = some rep) (hst : rep.status = "complete")
    (hfid : rep.fileId = some fid) :
    exportSurvey st w oc fmt folderName
      = (Ev.netExportRequest :: (pollLoop oc.polls).1 ++ [Ev.netFetch fid],
         { st with responseFolder := some (resolvedFolder st folderName),
                   responsesFile := some (resolvedFolder st folderName ++ "/"
                     ++ st.name ++ "." ++ fmt) },
         w.write (resolvedFolder st folderName ++ "/" ++ st.name ++ "." ++ fmt)
           oc.archive,
         .ok (resolvedFolder st folderName ++ "/" ++ st.name ++ "." ++ fmt)) := by
  have hok := pollLoop_ok_of_firstTerminal hterm
  have hnf : rep.status ≠ "failed" := by rw [hst]; decide
  have hg : ¬ (¬ truthy folderName = true ∧ ¬ truthy st.responseFolder = true) := by
    rcases hguard with h | h <;> simp [h]
  rw [exportSurvey, if_neg hg]
  simp [hok, hnf, hfid]

/-- The body of `get_responses` whenever the export branch is taken
(forced `re_download`, redirected folder, or missing artifact file) and
the export succeeds. -/
theorem getResponsesBody_export_any (st : SurveyState) (w : World) (oc : ExportOracle)
    (folderName : Option String) (re_download : Bool) (rep : PollReply) (fid : String)
    (hneed : re_download = true
      ∨ (truthy folderName = true ∧ folderName ≠ st.responseFolder)
      ∨ ¬ truthy st.responsesFile = true)
    (hguard : truthy folderName = true ∨ truthy st.responseFolder = true)
    (hterm : firstTerminal oc.polls = some rep) (hst : rep.status = "complete")
    (hfid : rep.fileId = some fid) :
    getResponsesBody st w oc folderName re_download
      = ((Ev.sleep :: Ev.netExportRequest :: (pollLoop oc.polls).1 ++ [Ev.netFetch fid])
           ++ [Ev.fileRead (resolvedFolder st folderName ++ "/" ++ st.name
                 ++ "." ++ "csv")],
         { st with responseFolder := some (resolvedFolder st folderName),
                   responsesFile := some (resolvedFolder st folderName ++ "/"
                     ++ st.name ++ "." ++ "csv"),
                   responses := some ((oc.archive.drop 2).map mkResponse) },
         w.write (resolvedFolder st folderName ++ "/" ++ st.name ++ "." ++ "csv")
           oc.archive,
         if 2 ≤ oc.archive.length then .ok ((oc.archive.drop 2).map mkResponse)
         else .error .indexError) := by
  have hexp := exportSurvey_complete_any st w oc "csv" folderName rep fid hguard
    hterm hst hfid
  have hdec := decodePhase_fresh
    (Ev.sleep :: Ev.netExportRequest :: (pollLoop oc.polls).1 ++ [Ev.netFetch fid])
    { st with responseFolder := some (resolvedFolder st folderName),
              responsesFile := some (resolvedFolder st folderName ++ "/"
                ++ st.name ++ "." ++ "csv"),
              responses := none }
    (w.write (resolvedFolder st folderName ++ "/" ++ st.name ++ "." ++ "csv")
      oc.archive)
    (resolvedFolder st folderName ++ "/" ++ st.name ++ "." ++ "csv") oc.archive
    rfl rfl
    (World.read_write w (resolvedFolder st folderName ++ "/" ++ st.name
      ++ "." ++ "csv") oc.archive)
  rw [getResponsesBody, if_pos hneed, hexp]
  simpa using hdec

/-- `get_responses` under any export-running refresh trigger. -/
theorem get_responses_export_any (st : SurveyState) (w : World) (oc : ExportOracle)
    (folderName : Option String) (re_download : Bool) (rep : PollReply) (fid : String)
    (hneed : re_download = true
      ∨ (truthy folderName = true ∧ folderName ≠ st.responseFolder)
      ∨ ¬ truthy st.responsesFile = true)
    (hguard : truthy folderName = true ∨ truthy st.responseFolder = true)
    (hterm : firstTerminal oc.polls = some rep) (hst : rep.status = "complete")
    (hfid : rep.fileId = some fid) (hlen : 2 ≤ oc.archive.length) :
    get_responses st w oc folderName re_download
      = ((Ev.sleep :: Ev.netExportRequest :: (pollLoop oc.polls).1 ++ [Ev.netFetch fid])
           ++ [Ev.fileRead (resolvedFolder st folderName ++ "/" ++ st.name
                 ++ "." ++ "csv")],
         { st with responseFolder := some (resolvedFolder st folderName),
                   responsesFile := some (resolvedFolder st folderName ++ "/"
                     ++ st.name ++ "." ++ "csv"),
                   responses := some ((oc.archive.drop 2).map mkResponse) },
         w.write (resolvedFolder st folderName ++ "/" ++ st.name ++ "." ++ "csv")
           oc.archive,
         some ((oc.archive.drop 2).map mkResponse)) := by
  rw [get_responses, getResponsesBody_export_any st w oc folderName re_download rep fid
    hneed hguard hterm hst hfid, if_pos hlen]

/-- The filter refresh prelude, whenever its trigger fires AND the
export branch runs and succeeds: both the row sequence and the columnar
table are rebuilt from the freshly exported artifact. -/
theorem filterRefresh_export_any (st : SurveyState) (w : World) (oc : ExportOracle)
    (folderName : Option String) (re_download : Bool) (rep : PollReply) (fid : String)
    (htrig : re_download = true ∨ truthy folderName = true
      ∨ st.responseDataframe = none)
    (hneed : re_download = true
      ∨ (truthy folderName = true ∧ folderName ≠ st.responseFolder)
      ∨ ¬ truthy st.responsesFile = true)
    (hguard : truthy folderName = true ∨ truthy st.responseFolder = true)
    (hterm : firstTerminal oc.polls = some rep) (hst : rep.status = "complete")
    (hfid : rep.fileId = some fid) (hlen : 2 ≤ oc.archive.length) :
    filterRefresh st w oc folderName re_download
      = (((Ev.sleep :: Ev.netExportRequest :: (pollLoop oc.polls).1 ++ [Ev.netFetch fid])
            ++ [Ev.fileRead (resolvedFolder st folderName ++ "/" ++ st.name
                  ++ "." ++ "csv")])
          ++ [Ev.fileRead (resolvedFolder st folderName ++ "/" ++ st.name
                ++ "." ++ "csv")],
         { st with responseFolder := some (resolvedFolder st folderName),
                   responsesFile := some (resolvedFolder st folderName ++ "/"
                     ++ st.name ++ "." ++ "csv"),
                   responses := some ((oc.archive.drop 2).map mkResponse),
                   responseDataframe := some (oc.archive.drop 2) },
         w.write (resolvedFolder st folderName ++ "/" ++ st.name ++ "." ++ "csv")
           oc.archive) := by
  have hget := get_responses_export_any st w oc folderName re_download rep fid
    hneed hguard hterm hst hfid hlen
  have hcreate := create_responses_dataframe_reads
    { st with responseFolder := some (resolvedFolder st folderName),
              responsesFile := some (resolvedFolder st folderName ++ "/"
                ++ st.name ++ "." ++ "csv"),
              responses := some ((oc.archive.drop 2).map mkResponse) }
    (w.write (resolvedFolder st folderName ++ "/" ++ st.name ++ "." ++ "csv")
      oc.archive)
    (resolvedFolder st folderName ++ "/" ++ st.name ++ "." ++ "csv") oc.archive rfl
    (append_ne_empty _ "csv" (by decide))
    (World.read_write w (resolvedFolder st folderName ++ "/" ++ st.name
      ++ "." ++ "csv") oc.archive)
  rw [filterRefresh, if_pos htrig, hget]
  dsimp only
  rw [hcreate]

/-- C6, counterexample: a direct `get_responses(re_download=True)` call
over a store consistently on artifact A, with the export now serving
artifact B, rebuilds the row sequence from B but leaves the columnar
table on A — the two representations of the store diverge. -/
theorem C6_direct_refresh_leaves_table_stale :
    (get_responses exStateOnA exWorldOnA exOracleB none true).2.1.responses
      = some ((exArtifactB.drop 2).map mkResponse)
    ∧ (get_responses exStateOnA exWorldOnA exOracleB none true).2.1.responseDataframe
      = some (exArtifactA.drop 2)
    ∧ (exArtifactA.drop 2 : List Row) ≠ exArtifactB.drop 2 :=
  ⟨by decide, by decide, by decide⟩

/-- C6, amended: the FILTER entry points rebuild both representations
together, under every trigger of their refresh guard.  (a) Whenever the
refresh runs a successful export — forced `re_download`, a redirected
output folder, or a missing artifact file — row sequence and columnar
table both reflect the freshly exported artifact (with its two
header-repeat rows, per the artifact format contract).  (b) A refresh
triggered only by a missing columnar table, with the artifact cached on
disk and a non-empty row sequence decoded from it, rebuilds the table
from that same artifact, leaving both representations consistent. -/
theorem C6_filter_refresh_rebuilds_both (st : SurveyState) (w : World)
    (oc : ExportOracle) (flt : List (Field × List Cell)) (df : Bool)
    (folderName : Option String) (re_download : Bool)
    (rep : PollReply) (fid : String) :
    ((re_download = true ∨ truthy folderName = true ∨ st.responseDataframe = none) →
     (re_download = true
        ∨ (truthy folderName = true ∧ folderName ≠ st.responseFolder)
        ∨ ¬ truthy st.responsesFile = true) →
     (truthy folderName = true ∨ truthy st.responseFolder = true) →
     firstTerminal oc.polls = some rep → rep.status = "complete" →
     rep.fileId = some fid → 2 ≤ oc.archive.length →
     (filter_responses_by_text st w oc flt none folderName re_download df).2.1.responses
        = some ((oc.archive.drop 2).map mkResponse)
     ∧ (filter_responses_by_text st w oc flt none folderName
          re_download df).2.1.responseDataframe
        = some (oc.archive.drop 2))
    ∧ (∀ (p : String) (rows : List Row), st.responseDataframe = none →
        st.responsesFile = some p → p ≠ "" → w.read p = some rows →
        st.responses = some ((rows.drop 2).map mkResponse) → rows.drop 2 ≠ [] →
        (filter_responses_by_text st w oc flt none none false df).2.1.responses
          = some ((rows.drop 2).map mkResponse)
        ∧ (filter_responses_by_text st w oc flt none none
            false df).2.1.responseDataframe
          = some (rows.drop 2)) := by
  constructor
  · intro htrig hneed hguard hterm hst hfid hlen
    rw [filter_responses_by_text, filterRefresh_export_any st w oc folderName
      re_download rep fid htrig hneed hguard hterm hst hfid hlen]
    exact ⟨rfl, rfl⟩
  · intro p rows hdfnone hfile hpne hread hresp hne2
    have hfiletruthy : truthy st.responsesFile = true := by
      rw [hfile]
      simp [truthy, hpne]
    have hget := get_responses_cached st w oc ((rows.drop 2).map mkResponse) hresp
      (fun hmap => hne2 (List.map_eq_nil_iff.mp hmap)) hfiletruthy
    have hcreate := create_responses_dataframe_reads st w p rows hfile hpne hread
    rw [filter_responses_by_text, filterRefresh,
      if_pos (Or.inr (Or.inr hdfnone)), hget]
    dsimp only
    rw [hcreate]
    exact ⟨hresp, rfl⟩

/-- C6, witness: (a) a redirected-folder refresh (`folderName="out2"`,
`re_download=False`) rebuilds both representations from artifact B;
(b) a missing-table refresh rebuilds the table from the cached rows'
own artifact. -/
theorem C6_filter_refresh_rebuilds_both_witness :
    (filter_responses_by_text exStateOnA exWorldOnA exOracleB [("Q1", ["A"])]
        none (some "out2") false false).2.1.responses
      = some [mkResponse exTextRow2]
    ∧ (filter_responses_by_text exStateOnA exWorldOnA exOracleB [("Q1", ["A"])]
        none (some "out2") false false).2.1.responseDataframe
      = some [exTextRow2]
    ∧ (filter_responses_by_text exNoTableState exWorldP3 exOracle [("Q1", ["A"])]
        none none false false).2.1.responses
      = some [mkResponse exTextRow3]
    ∧ (filter_responses_by_text exNoTableState exWorldP3 exOracle [("Q1", ["A"])]
        none none false false).2.1.responseDataframe
      = some [exTextRow3] := by
  have hA := (C6_filter_refresh_rebuilds_both exStateOnA exWorldOnA exOracleB
      [("Q1", ["A"])] false (some "out2") false ⟨"complete", some "f1", 100⟩ "f1").1
    (by decide) (by decide) (by decide) rfl rfl rfl (by decide)
  have hB := (C6_filter_refresh_rebuilds_both exNoTableState exWorldP3 exOracle
      [("Q1", ["A"])] false none false ⟨"complete", some "f1", 100⟩ "f1").2
    "p" [exTextRow1, exTextRow1, exTextRow3] rfl rfl (by decide) rfl (by decide)
    (by decide)
  exact ⟨hA.1.trans (by decide), hA.2.trans (by decide),
    hB.1.trans (by decide), hB.2.trans (by decide)⟩

/-- C7: a successful csv export run extracts to the deterministic path
`folder/surveyName.csv`, decoding discards exactly the first two data
rows of the artifact, and each record's `answers` mapping holds exactly
the columns whose names carry the `Q` question prefix. -/
theorem C7_csv_export_decode (st : SurveyState) (w : World) (oc : ExportOracle)
    (fdr : String) (rep : PollReply) (fid : String)
    (hf : st.responseFolder = some fdr) (hfne : fdr ≠ "")
    (hterm : firstTerminal oc.polls = some rep) (hst : rep.status = "complete")
    (hfid : rep.fileId = some fid) (hlen : 2 ≤ oc.archive.length) :
    (get_responses st w oc none true).2.1.responsesFile
      = some (fdr ++ "/" ++ st.name ++ "." ++ "csv")
    ∧ (get_responses st w oc none true).2.2.2
      = some ((oc.archive.drop 2).map mkResponse)
    ∧ ∀ r : Row, ∀ f v, ((f, v) ∈ (mkResponse r).answers
        ↔ (f, v) ∈ r ∧ pyStartsWith f "Q" = true) := by
  have hget := get_responses_refresh st w oc fdr rep fid hf hfne hterm hst hfid hlen
  refine ⟨by rw [hget], by rw [hget], ?_⟩
  intro r f v
  show (f, v) ∈ r.filter (fun p => pyStartsWith p.1 "Q") ↔ _
  rw [List.mem_filter]

/-- C7, witness: the spec scenario on a three-row archive. -/
theorem C7_csv_export_decode_witness :
    (get_responses exFreshState exBareWorld exScenarioOracle none true).2.1.responsesFile
      = some "out/S.csv"
    ∧ (get_responses exFreshState exBareWorld exScenarioOracle none true).2.2.2
      = some [mkResponse exTextRow3]
    ∧ (mkResponse exTextRow3).answers = [("Q1", "A"), ("Q2", "Y")] := by
  have h := C7_csv_export_decode exFreshState exBareWorld exScenarioOracle "out"
    ⟨"complete", some "f1", 100⟩ "f1" rfl (by decide) (by decide) rfl rfl (by decide)
  exact ⟨h.1.trans (by decide), h.2.1.trans (by decide), by decide⟩

/-- C8, counterexample: a store whose snapshot decoded to ZERO records
(`responses = []`) re-opens and re-decodes the artifact on the very next
`get_responses(re_download=False)` call — the trace contains a file
read, contradicting "no re-decoding" (though there is still no network
call and the empty sequence is returned again). -/
theorem C8_rematerialize_decodes_when_empty :
    (get_responses exEmptyState exEmptyWorld exOracle none false).1
      = [Ev.fileRead "p"]
    ∧ (get_responses exEmptyState exEmptyWorld exOracle none false).2.2.2 = some [] :=
  ⟨by decide, by decide⟩

/-- C8, amended: a store materialized to a NON-EMPTY record sequence is
idempotent under `get_responses(re_download=False)`: the identical
record list is returned, the state (hence the columnar table) is
unchanged, and the trace is empty — no re-decoding, no network call. -/
theorem C8_materialize_idempotent (st : SurveyState) (w : World) (oc : ExportOracle)
    (l : List Response) (hresp : st.responses = some l) (hne : l ≠ [])
    (hfile : truthy st.responsesFile) :
    get_responses st w oc none false = ([], st, w, some l)
    ∧ (get_responses st w oc none false).2.1.responseDataframe
      = st.responseDataframe := by
  have h := get_responses_cached st w oc l hresp hne hfile
  exact ⟨h, by rw [h]⟩

/-- C8, witness: the amended idempotence at a concrete populated store. -/
theorem C8_materialize_idempotent_witness :
    get_responses exTextState exWorld exOracle none false
      = ([], exTextState, exWorld,
         some ([exTextRow1, exTextRow2, exTextRow3].map mkResponse)) :=
  (C8_materialize_idempotent exTextState exWorld exOracle
    ([exTextRow1, exTextRow2, exTextRow3].map mkResponse) rfl (by decide)
    (by decide)).1

/-! ## Pagination lemmas -/

theorem getSurveysGo_concat :
    ∀ (front : List Page) (last : Page) (acc : List PyV),
      (∀ pg ∈ front, (Page.nextPage pg).isSome) → last.nextPage = none →
      getSurveysGo (front ++ [last]) acc
        = acc ++ ((front ++ [last]).map Page.elements).flatten := by
  intro front
  induction front with
  | nil =>
      intro last acc _ hlast
      simp [getSurveysGo, hlast]
  | cons pg rest ih =>
      intro last acc hfront hlast
      obtain ⟨c, hc⟩ := Option.isSome_iff_exists.mp
        (hfront pg (List.mem_cons_self _ _))
      rw [List.cons_append, getSurveysGo, hc,
        ih last (acc ++ pg.elements) (fun p hp => hfront p (List.mem_cons_of_mem _ hp))
          hlast]
      simp

/-- The traversal shape shared by `get_surveys` and `get_libraries`
(which, unlike `get_groups`, append the page ELEMENT) returns exactly
the concatenation of all page elements in server order, stopping at the
page with no next cursor — for either cursor style, since the cursor
only selects which page the collaborator serves next. -/
theorem get_surveys_concat (front : List Page) (last : Page)
    (hfront : ∀ pg ∈ front, (Page.nextPage pg).isSome)
    (hlast : last.nextPage = none) :
    get_surveys (front ++ [last]) = ((front ++ [last]).map Page.elements).flatten := by
  rw [get_surveys, getSurveysGo_concat front last [] hfront hlast]
  rfl

/-- Witness for `get_surveys_concat` at a two-page listing. -/
theorem get_surveys_concat_witness :
    get_surveys [⟨[PyV.str "s1", PyV.str "s2"], some "100"⟩,
        ⟨[PyV.str "s3"], Option.none⟩]
      = [PyV.str "s1", PyV.str "s2", PyV.str "s3"] := by
  have h := get_surveys_concat [⟨[PyV.str "s1", PyV.str "s2"], some "100"⟩]
    ⟨[PyV.str "s3"], Option.none⟩ (by intro pg hpg; fin_cases hpg; rfl) rfl
  exact h.trans (by rfl)

/-! ## Claim theorems, continued -/

/-- C9: `get_groups` cannot return the page elements: the source's loop
body constructs `Group(data=groups)` from the accumulator LIST instead
of the loop element `group`, and `.get` on a list raises
`AttributeError` — so a one-page listing with a single well-formed
element crashes instead of returning that element.  The sibling
traversals `get_surveys`/`get_libraries`, which pass the element, do
satisfy the concatenation property (`get_surveys_concat`). -/
theorem C9_get_groups_crashes :
    get_groups [exGroupsPage] = .error .attributeError := rfl

/-- C10: `get_responses` runs its whole body inside
`try: ... except Exception: return None` — whenever the body raises
(export failure, missing or unreadable artifact file, decode error),
the call returns `None` instead of propagating the error. -/
theorem C10_materialize_swallows_errors (st : SurveyState) (w : World)
    (oc : ExportOracle) (folderName : Option String) (re_download : Bool) (e : PyErr)
    (h : (getResponsesBody st w oc folderName re_download).2.2.2 = .error e) :
    (get_responses st w oc folderName re_download).2.2.2 = none := by
  rcases hb : getResponsesBody st w oc folderName re_download with ⟨evs, st1, w1, r⟩
  rw [get_responses, hb]
  rw [hb] at h
  cases r with
  | error e2 => rfl
  | ok l => simp at h

/-- C10, witness: a failed export is logged and swallowed — the caller
receives `None`. -/
theorem C10_materialize_swallows_errors_witness :
    (getResponsesBody exFreshState exBareWorld exFailOracle none false).2.2.2
      = .error (.exc "export failed")
    ∧ (get_responses exFreshState exBareWorld exFailOracle none false).2.2.2
      = none :=
  ⟨by decide, C10_materialize_swallows_errors exFreshState exBareWorld exFailOracle
    none false (.exc "export failed") (by decide)⟩

end Pyualtrics
